import Mathlib

/-! wincon: Lua interface to the Windows Console API

A shallow embedding of `src/wincon.c`.

* The Lua host is modelled by an explicit `lua_State`: the value stack of the
  running C function (top of the stack first), the two registry slots the
  module uses, and the debug information the host attaches to a call.
* The Win32 console subsystem is modelled by an arbitrary transition function
  `Win32 σ` over an abstract platform state `σ`; every native call made by the
  C code goes through `win32`, which also appends the call and its reply to a
  log, so that statements such as "no platform call is made" can be expressed.
* Machine integer conversions that the C code performs when it narrows a
  `lua_Integer` (64 bit) to `DWORD`, `WORD`, `SHORT` or `TCHAR` are explicit.
  Values the platform hands back (`DWORD`, `WORD`, `SHORT`) are taken to lie in
  the range of their type.  A `HANDLE` is pointer sized and survives the cast to
  `lua_Integer` and back; it is kept as an integer.
* A C function ends in an `Outcome`: it returns a number of results, or it
  raises a Lua error, or the process ends in it because a stack allocation
  (`_alloca`) failed.  `size_t` is taken as 64 bit.
-/

set_option autoImplicit false

namespace Wincon

/-! ## Lua values -/

/-- Keys of a Lua table that the module uses: field names and array indices. -/
inductive LuaKey where
  | str (s : String)
  | int (i : Int)
  deriving DecidableEq, Repr

/-- Lua values that cross the module boundary.  A table is kept by value as an
association list from keys to non-nil values; `cfunction` is a C function of the
module, named by its registration name.  Strings are byte strings, one `Char`
per `TCHAR`.  Floating point values are outside the model. -/
inductive LuaValue where
  | nil
  | boolean (b : Bool)
  | integer (i : Int)
  | string (s : String)
  | cfunction (name : String)
  | table (fields : List (LuaKey × LuaValue))

/-- Raw table assignment `t[k] = v` on an association list: the old binding of
`k` is removed, and a non-nil `v` is bound. -/
def tableSet (t : List (LuaKey × LuaValue)) (k : LuaKey) (v : LuaValue) :
    List (LuaKey × LuaValue) :=
  match v with
  | .nil => t.filter (fun e => decide (e.1 ≠ k))
  | _ => t.filter (fun e => decide (e.1 ≠ k)) ++ [(k, v)]

/-- Raw table read `t[k]` on an association list; an absent key reads as nil. -/
def tableGet (t : List (LuaKey × LuaValue)) (k : LuaKey) : LuaValue :=
  match t.find? (fun e => decide (e.1 = k)) with
  | some e => e.2
  | none => .nil

/-- Assignment `v[k] = x` when `v` is a table; other values are left alone. -/
def LuaValue.set (v : LuaValue) (k : LuaKey) (x : LuaValue) : LuaValue :=
  match v with
  | .table t => .table (tableSet t k x)
  | other => other

/-- Read `v[k]` when `v` is a table; nil otherwise. -/
def LuaValue.get (v : LuaValue) (k : LuaKey) : LuaValue :=
  match v with
  | .table t => tableGet t k
  | _ => .nil

/-- Field read `v.name`. -/
def LuaValue.field (v : LuaValue) (name : String) : LuaValue := v.get (.str name)

/-- Array read `v[i]`. -/
def LuaValue.index (v : LuaValue) (i : Int) : LuaValue := v.get (.int i)

/-! ## Lua state -/

/-- The two static anchors `hin`, `hout` whose addresses key the registry. -/
inductive RegKey where
  | hin
  | hout
  deriving DecidableEq, Repr

/-- The part of a `lua_State` the module touches.  `stack` holds the frame of
the running C function with the top of the stack first, so that index `-1` is the
head and index `1` is the last element.  `ar_name` is the name that
`lua_getinfo(L,"n",&ar)` reports for the running function, and `where1` is
the position prefix `luaL_where(L,1)` adds to messages of `luaL_error`. -/
structure lua_State where
  stack : List LuaValue
  registry : RegKey → LuaValue
  ar_name : String
  where1 : String

/-- Apply `f` to the element at position `n` of a list. -/
def updateAt {α : Type} (f : α → α) : Nat → List α → List α
  | _, [] => []
  | 0, a :: as => f a :: as
  | n + 1, a :: as => a :: updateAt f n as

/-- `lua_gettop`: number of values in the frame. -/
def lua_gettop (L : lua_State) : Nat := L.stack.length

/-- The value at an acceptable stack index (positive: from the bottom,
negative: from the top); `none` when the index names no value. -/
def index2value (L : lua_State) (idx : Int) : Option LuaValue :=
  if 0 < idx then L.stack.reverse[idx.toNat - 1]?
  else if idx < 0 then L.stack[(-idx).toNat - 1]?
  else none

/-- Push one value. -/
def lua_push (L : lua_State) (v : LuaValue) : lua_State :=
  { L with stack := v :: L.stack }

/-- `lua_pushnil`. -/
def lua_pushnil (L : lua_State) : lua_State := lua_push L .nil

/-- `lua_pushboolean`: any nonzero C int is true. -/
def lua_pushboolean (L : lua_State) (b : Int) : lua_State :=
  lua_push L (.boolean (decide (b ≠ 0)))

/-- `lua_pushinteger`. -/
def lua_pushinteger (L : lua_State) (n : Int) : lua_State := lua_push L (.integer n)

/-- `lua_pushstring` / `lua_pushliteral` / `lua_pushlstring` / `lua_pushfstring`
once the text is known. -/
def lua_pushstring (L : lua_State) (s : String) : lua_State := lua_push L (.string s)

/-- `lua_createtable`: push a new empty table (the two size hints only
preallocate). -/
def lua_createtable (L : lua_State) (_narr _nrec : Nat) : lua_State :=
  lua_push L (.table [])

/-- Pop the top value `v` and perform `t[k] = v` on the table at index `idx`
(an index valid before the pop). -/
def setAt (L : lua_State) (idx : Int) (k : LuaKey) : lua_State :=
  match L.stack with
  | [] => L
  | v :: rest =>
    let pos : Nat := if idx < 0 then (-idx).toNat - 2 else rest.length - idx.toNat
    { L with stack := updateAt (fun t => t.set k v) pos rest }

/-- `lua_setfield(L,idx,k)`. -/
def lua_setfield (L : lua_State) (idx : Int) (k : String) : lua_State :=
  setAt L idx (.str k)

/-- `lua_rawseti(L,idx,n)`. -/
def lua_rawseti (L : lua_State) (idx : Int) (n : Int) : lua_State :=
  setAt L idx (.int n)

/-- `lua_rawgetp(L,LUA_REGISTRYINDEX,key)`: push the registry slot. -/
def lua_rawgetp_registry (L : lua_State) (key : RegKey) : lua_State :=
  lua_push L (L.registry key)

/-- `lua_tointeger`: the integer at the index, or 0 when there is none. -/
def lua_tointeger (L : lua_State) (idx : Int) : Int :=
  match index2value L idx with
  | some (.integer i) => i
  | _ => 0

/-- `lua_toboolean`: 0 for nil, false and an absent value, 1 otherwise. -/
def lua_toboolean (L : lua_State) (idx : Int) : Int :=
  match index2value L idx with
  | none => 0
  | some .nil => 0
  | some (.boolean false) => 0
  | some _ => 1

/-! ## Console input records -/

/-- `KEY_EVENT_RECORD` (the fields the module reads, and the ones it skips). -/
structure KEY_EVENT_RECORD where
  bKeyDown : Int := 0
  wRepeatCount : Nat := 0
  wVirtualKeyCode : Nat := 0
  wVirtualScanCode : Nat := 0
  uChar : Nat := 0
  dwControlKeyState : Nat := 0
  deriving DecidableEq, Repr

/-- `COORD`: two signed 16 bit values. -/
structure COORD where
  X : Int := 0
  Y : Int := 0
  deriving DecidableEq, Repr

/-- `MOUSE_EVENT_RECORD`. -/
structure MOUSE_EVENT_RECORD where
  dwMousePosition : COORD := {}
  dwButtonState : Nat := 0
  dwControlKeyState : Nat := 0
  dwEventFlags : Nat := 0
  deriving DecidableEq, Repr

/-- `WINDOW_BUFFER_SIZE_RECORD`. -/
structure WINDOW_BUFFER_SIZE_RECORD where
  dwSize : COORD := {}
  deriving DecidableEq, Repr

/-- `INPUT_RECORD`: a discriminant and a union.  The union is kept as one field
per view; the code reads only the view that the discriminant selects. -/
structure INPUT_RECORD where
  EventType : Nat := 0
  KeyEvent : KEY_EVENT_RECORD := {}
  MouseEvent : MOUSE_EVENT_RECORD := {}
  WindowBufferSizeEvent : WINDOW_BUFFER_SIZE_RECORD := {}
  deriving DecidableEq, Repr

/-- Platform header constant `KEY_EVENT`. -/
def KEY_EVENT : Nat := 0x0001
/-- Platform header constant `MOUSE_EVENT`. -/
def MOUSE_EVENT : Nat := 0x0002
/-- Platform header constant `WINDOW_BUFFER_SIZE_EVENT`. -/
def WINDOW_BUFFER_SIZE_EVENT : Nat := 0x0004
/-- Platform header constant `MENU_EVENT`. -/
def MENU_EVENT : Nat := 0x0008
/-- Platform header constant `FOCUS_EVENT`. -/
def FOCUS_EVENT : Nat := 0x0010

/-! ## Event translation (`wincon.c` lines 164-206) -/

/-- `convertKeyInput`: push a table describing a key event; returns 1. -/
def convertKeyInput (L : lua_State) (ev : KEY_EVENT_RECORD) : Nat × lua_State :=
  let L := lua_createtable L 0 5
  let L := lua_setfield (lua_pushstring L "key") (-2) "type"
  let L := lua_setfield (lua_pushboolean L ev.bKeyDown) (-2) "keydown"
  let L := lua_setfield (lua_pushinteger L ev.wRepeatCount) (-2) "count"
  let L := lua_setfield (lua_pushinteger L ev.wVirtualKeyCode) (-2) "vkey"
  let L := lua_setfield (lua_pushinteger L ev.dwControlKeyState) (-2) "state"
  (1, L)

/-- `convertMouseInput`: push a table describing a mouse event; returns 1. -/
def convertMouseInput (L : lua_State) (ev : MOUSE_EVENT_RECORD) : Nat × lua_State :=
  let L := lua_createtable L 0 6
  let L := lua_setfield (lua_pushstring L "mouse") (-2) "type"
  let L := lua_setfield (lua_pushinteger L ev.dwMousePosition.X) (-2) "x"
  let L := lua_setfield (lua_pushinteger L ev.dwMousePosition.Y) (-2) "y"
  let L := lua_setfield (lua_pushinteger L ev.dwButtonState) (-2) "buttons"
  let L := lua_setfield (lua_pushinteger L ev.dwControlKeyState) (-2) "state"
  let L := lua_setfield (lua_pushinteger L ev.dwEventFlags) (-2) "event"
  (1, L)

/-- `convertResizeInput`: push a table describing a resize event; returns 1. -/
def convertResizeInput (L : lua_State) (ev : WINDOW_BUFFER_SIZE_RECORD) :
    Nat × lua_State :=
  let L := lua_createtable L 0 3
  let L := lua_setfield (lua_pushstring L "resize") (-2) "type"
  let L := lua_setfield (lua_pushinteger L ev.dwSize.X) (-2) "columns"
  let L := lua_setfield (lua_pushinteger L ev.dwSize.Y) (-2) "rows"
  (1, L)

/-- `convertInput`: dispatch on the discriminant; other events push nothing and
return 0. -/
def convertInput (L : lua_State) (ev : INPUT_RECORD) : Nat × lua_State :=
  if ev.EventType = KEY_EVENT then convertKeyInput L ev.KeyEvent
  else if ev.EventType = MOUSE_EVENT then convertMouseInput L ev.MouseEvent
  else if ev.EventType = WINDOW_BUFFER_SIZE_EVENT then
    convertResizeInput L ev.WindowBufferSizeEvent
  else (0, L)

/-- The loop of `convertInputs` from record `ev[0]` on, `j` being the number of
events stored so far. -/
def convertInputsFrom : List INPUT_RECORD → Nat → lua_State → lua_State
  | [], _, L => L
  | r :: rest, j, L =>
    let (c, L1) := convertInput L r
    if c ≠ 0 then convertInputsFrom rest (j + 1) (lua_rawseti L1 (-2) (j + 1 : Nat))
    else convertInputsFrom rest j L1

/-- `convertInputs(L,n,ev)`: translate the first `n` records of `ev` into the
table on top of the stack.  The buffer `ev` is a list; the loop ends with the
buffer when `n` exceeds its length (where the C code would read past it).  The
`int` parameter `n` is kept as a natural number: a caller holding an `int` that
is not positive, for which the loop does not run, passes 0. -/
def convertInputs (L : lua_State) (n : Nat) (ev : List INPUT_RECORD) : lua_State :=
  convertInputsFrom (ev.take n) 0 L

/-! ## Narrowing conversions of C -/

/-- Conversion of a `lua_Integer` to `DWORD` / `UINT` (32 bit unsigned). -/
def toDWORD (i : Int) : Nat := (i % 2 ^ 32).toNat

/-- Conversion of a `lua_Integer` to `WORD` (16 bit unsigned). -/
def toWORD (i : Int) : Nat := (i % 2 ^ 16).toNat

/-- Conversion of a `lua_Integer` to `SHORT` (16 bit signed). -/
def toSHORT (i : Int) : Int := (i + 2 ^ 15) % 2 ^ 16 - 2 ^ 15

/-- Conversion of a `lua_Integer` to `TCHAR` (one byte, kept as 0..255). -/
def toTCHAR (i : Int) : Nat := (i % 2 ^ 8).toNat

/-- Conversion of a `DWORD` to `int` (32 bit signed). -/
def toInt32 (n : Nat) : Int :=
  if n % 2 ^ 32 < 2 ^ 31 then (n % 2 ^ 32 : Nat) else ((n % 2 ^ 32 : Nat) : Int) - 2 ^ 32

/-! ## The platform -/

/-- `CONSOLE_CURSOR_INFO`. -/
structure CONSOLE_CURSOR_INFO where
  dwSize : Nat := 0
  bVisible : Int := 0
  deriving DecidableEq, Repr

/-- `SMALL_RECT`. -/
structure SMALL_RECT where
  Left : Int := 0
  Top : Int := 0
  Right : Int := 0
  Bottom : Int := 0
  deriving DecidableEq, Repr

/-- `CONSOLE_SCREEN_BUFFER_INFO`. -/
structure CONSOLE_SCREEN_BUFFER_INFO where
  dwSize : COORD := {}
  dwCursorPosition : COORD := {}
  wAttributes : Nat := 0
  srWindow : SMALL_RECT := {}
  dwMaximumWindowSize : COORD := {}
  deriving DecidableEq, Repr

/-- A native call together with the arguments the C code passes by value.
A `HANDLE` is kept as the integer it is cast to.  `_alloca` is the stack
allocation of the C runtime: its reply has `rv = 0` when the stack cannot
hold `size` more bytes, in which case the process ends with a stack
overflow, and a nonzero `rv` when the buffer was allocated. -/
inductive Call where
  | GetLastError
  | FormatMessage (dwFlags : Nat) (dwMessageId : Nat)
  | LocalFree
  | GetStdHandle (nStdHandle : Nat)
  | GetConsoleMode (h : Int)
  | SetConsoleMode (h : Int) (dwMode : Nat)
  | GetConsoleCP
  | GetConsoleOutputCP
  | SetConsoleCP (cp : Nat)
  | SetConsoleOutputCP (cp : Nat)
  | FlushConsoleInputBuffer (h : Int)
  | GetNumberOfConsoleInputEvents (h : Int)
  | GetNumberOfConsoleMouseButtons
  | PeekConsoleInput (h : Int) (nLength : Nat)
  | ReadConsoleInput (h : Int) (nLength : Nat)
  | WaitForSingleObject (h : Int) (dwMilliseconds : Nat)
  | FillConsoleOutputAttribute (h : Int) (wAttribute : Nat) (nLength : Nat) (xy : COORD)
  | FillConsoleOutputCharacter (h : Int) (ch : Nat) (nLength : Nat) (xy : COORD)
  | SetConsoleTextAttribute (h : Int) (wAttributes : Nat)
  | WriteConsole (h : Int) (text : String) (nChars : Nat)
  | GetConsoleCursorInfo (h : Int)
  | SetConsoleCursorInfo (h : Int) (ci : CONSOLE_CURSOR_INFO)
  | SetConsoleCursorPosition (h : Int) (xy : COORD)
  | GetConsoleScreenBufferInfo (h : Int)
  | GetConsoleOriginalTitle (nSize : Nat)
  | GetConsoleTitle (nSize : Nat)
  | SetConsoleTitle (text : String)
  | _alloca (size : Nat)
  deriving DecidableEq, Repr

/-- What a native call hands back: its return value (`rv` for `BOOL`, `DWORD`
and `UINT` results, `handle` for a `HANDLE`) and whatever it stored through its
out-parameters. -/
structure Ret where
  rv : Nat := 0
  handle : Int := 0
  dword : Nat := 0
  text : List Char := []
  records : List INPUT_RECORD := []
  cursor : CONSOLE_CURSOR_INFO := {}
  buffer : CONSOLE_SCREEN_BUFFER_INFO := {}
  deriving DecidableEq, Repr

/-- The platform: an arbitrary deterministic reaction to native calls over a
platform state `σ` (which holds, among other things, the last-error code). -/
abbrev Win32 (σ : Type) := Call → σ → Ret × σ

/-- Platform state together with the log of native calls made so far. -/
structure Sys (σ : Type) where
  world : σ
  log : List (Call × Ret)

/-- Perform one native call and record it. -/
def win32 {σ : Type} (P : Win32 σ) (c : Call) (s : Sys σ) : Ret × Sys σ :=
  ((P c s.world).1, { world := (P c s.world).2, log := s.log ++ [(c, (P c s.world).1)] })

/-- Platform header constant `sizeof(INPUT_RECORD)`: a `WORD`, two bytes of
padding and a union of 16 bytes. -/
def sizeof_INPUT_RECORD : Nat := 20

/-- Platform header constant `INVALID_HANDLE_VALUE`, `(HANDLE)-1`. -/
def INVALID_HANDLE_VALUE : Int := -1
/-- Platform header constant `STD_INPUT_HANDLE`, `(DWORD)-10`. -/
def STD_INPUT_HANDLE : Nat := 4294967286
/-- Platform header constant `STD_OUTPUT_HANDLE`, `(DWORD)-11`. -/
def STD_OUTPUT_HANDLE : Nat := 4294967285
/-- Platform header constant `ERROR_SUCCESS`. -/
def ERROR_SUCCESS : Nat := 0
/-- Platform header constant `INFINITE`. -/
def INFINITE : Nat := 0xFFFFFFFF
/-- Platform header constant `WAIT_FAILED`. -/
def WAIT_FAILED : Nat := 0xFFFFFFFF
/-- Platform header constant `WAIT_OBJECT_0`. -/
def WAIT_OBJECT_0 : Nat := 0
/-- Platform header constant `WAIT_TIMEOUT`. -/
def WAIT_TIMEOUT : Nat := 258
/-- Platform header constant `FORMAT_MESSAGE_ALLOCATE_BUFFER`. -/
def FORMAT_MESSAGE_ALLOCATE_BUFFER : Nat := 0x00000100
/-- Platform header constant `FORMAT_MESSAGE_FROM_SYSTEM`. -/
def FORMAT_MESSAGE_FROM_SYSTEM : Nat := 0x00001000

/-! ## Outcomes of a C function called by the host -/

/-- What a raised Lua error carries: an argument error of `luaL_check*` for
the given argument (its text is composed by the host library), or an error
value. -/
inductive LuaError where
  | argument (arg : Nat)
  | value (v : LuaValue)

/-- How a C function of the module ends: it returns the number of results, the
results being the topmost values of the stack, or it raises a Lua error and
does not return, or the process ends in it with a stack overflow (`crashed`,
which keeps the states reached for reference). -/
inductive Outcome (σ : Type) where
  | returned (n : Nat) (L : lua_State) (s : Sys σ)
  | raised (err : LuaError) (L : lua_State) (s : Sys σ)
  | crashed (L : lua_State) (s : Sys σ)

/-- The values the host receives: the top `n` stack values, first result first;
nothing when an error was raised or the process ended. -/
def Outcome.results {σ : Type} : Outcome σ → List LuaValue
  | .returned n L _ => (L.stack.take n).reverse
  | .raised _ _ _ => []
  | .crashed _ _ => []

/-- The Lua state an outcome leaves behind. -/
def Outcome.state {σ : Type} : Outcome σ → lua_State
  | .returned _ L _ => L
  | .raised _ L _ => L
  | .crashed L _ => L

/-- The platform state and log an outcome leaves behind. -/
def Outcome.sys {σ : Type} : Outcome σ → Sys σ
  | .returned _ _ s => s
  | .raised _ _ s => s
  | .crashed _ s => s

/-- `luaL_checkinteger(L,arg)`: the integer argument, `none` standing for the
argument error it raises otherwise.  (The coercion of numeric strings is
outside the model.) -/
def luaL_checkinteger (L : lua_State) (arg : Nat) : Option Int :=
  match index2value L arg with
  | some (.integer i) => some i
  | _ => none

/-- `luaL_checklstring(L,arg,&n)` / `luaL_checkstring`: the string argument
(an integer is converted to its decimal text), `none` standing for the
argument error. -/
def luaL_checklstring (L : lua_State) (arg : Nat) : Option String :=
  match index2value L arg with
  | some (.string s) => some s
  | some (.integer i) => some (toString i)
  | _ => none

/-- `luaL_checkany(L,arg)`: true when there is a value (nil included) at `arg`. -/
def luaL_checkany (L : lua_State) (arg : Nat) : Bool :=
  (index2value L arg).isSome

/-- A byte string read as a C string: it ends at the first NUL. -/
def cstring (s : String) : String := String.mk (s.data.takeWhile (fun c => c ≠ Char.ofNat 0))

/-! ## Error return (`wincon.c` lines 71-88) -/

/-- `lGetLastError`: push nil and a message made of the name of the running
function and either the platform's text for the last error or, when
`FormatMessage` returns 0, the number `GetLastError()` reports then. -/
def lGetLastError {σ : Type} (P : Win32 σ) (L : lua_State) (s : Sys σ) : Outcome σ :=
  let name := L.ar_name
  let L := lua_pushnil L
  let (e, s) := win32 P .GetLastError s
  let (r, s) :=
    win32 P (.FormatMessage (FORMAT_MESSAGE_ALLOCATE_BUFFER ||| FORMAT_MESSAGE_FROM_SYSTEM) e.rv) s
  if 0 ≠ r.rv then
    let L := lua_pushstring L (name ++ "():" ++ String.mk r.text)
    let (_, s) := win32 P .LocalFree s
    .returned 2 L s
  else
    let (e2, s) := win32 P .GetLastError s
    let L := lua_pushstring L (name ++ "():Win32 error " ++ toString e2.rv)
    .returned 2 L s

/-! ## Handle registry (`wincon.c` lines 90-109) -/

/-- `getHandle`: push the registry slot and read it back as a handle. -/
def getHandle (L : lua_State) (key : RegKey) : Int × lua_State :=
  let L := lua_rawgetp_registry L key
  (lua_tointeger L (-1), L)

/-- `CONIN(L)`. -/
def CONIN (L : lua_State) : Int × lua_State := getHandle L .hin
/-- `CONOUT(L)`. -/
def CONOUT (L : lua_State) : Int × lua_State := getHandle L .hout

/-! ## Console modes and code pages (`wincon.c` lines 111-160) -/

/-- `lGetConsoleMode`. -/
def lGetConsoleMode {σ : Type} (P : Win32 σ) (L : lua_State) (s : Sys σ) (h : Int) :
    Outcome σ :=
  let (r, s) := win32 P (.GetConsoleMode h) s
  if 0 = r.rv then lGetLastError P L s
  else .returned 1 (lua_pushinteger L r.dword) s

/-- `lSetConsoleMode`. -/
def lSetConsoleMode {σ : Type} (P : Win32 σ) (L : lua_State) (s : Sys σ) (h : Int) :
    Outcome σ :=
  match luaL_checkinteger L 1 with
  | none => .raised (.argument 1) L s
  | some i =>
    let m := toDWORD i
    let (r, s) := win32 P (.SetConsoleMode h m) s
    if 0 = r.rv then lGetLastError P L s
    else .returned 0 L s

/-- `lGetConsoleInputMode`. -/
def lGetConsoleInputMode {σ : Type} (P : Win32 σ) (L : lua_State) (s : Sys σ) : Outcome σ :=
  let (h, L) := CONIN L
  lGetConsoleMode P L s h

/-- `lGetConsoleOutputMode`. -/
def lGetConsoleOutputMode {σ : Type} (P : Win32 σ) (L : lua_State) (s : Sys σ) : Outcome σ :=
  let (h, L) := CONOUT L
  lGetConsoleMode P L s h

/-- `lSetConsoleInputMode`. -/
def lSetConsoleInputMode {σ : Type} (P : Win32 σ) (L : lua_State) (s : Sys σ) : Outcome σ :=
  let (h, L) := CONIN L
  lSetConsoleMode P L s h

/-- `lSetConsoleOutputMode`. -/
def lSetConsoleOutputMode {σ : Type} (P : Win32 σ) (L : lua_State) (s : Sys σ) : Outcome σ :=
  let (h, L) := CONOUT L
  lSetConsoleMode P L s h

/-- `lGetConsoleCP`. -/
def lGetConsoleCP {σ : Type} (P : Win32 σ) (L : lua_State) (s : Sys σ) : Outcome σ :=
  let (r, s) := win32 P .GetConsoleCP s
  .returned 1 (lua_pushinteger L r.rv) s

/-- `lGetConsoleOutputCP`. -/
def lGetConsoleOutputCP {σ : Type} (P : Win32 σ) (L : lua_State) (s : Sys σ) : Outcome σ :=
  let (r, s) := win32 P .GetConsoleOutputCP s
  .returned 1 (lua_pushinteger L r.rv) s

/-- `lSetConsoleCP`. -/
def lSetConsoleCP {σ : Type} (P : Win32 σ) (L : lua_State) (s : Sys σ) : Outcome σ :=
  match luaL_checkinteger L 1 with
  | none => .raised (.argument 1) L s
  | some i =>
    let cp := toDWORD i
    let (r, s) := win32 P (.SetConsoleCP cp) s
    if 0 = r.rv then lGetLastError P L s
    else .returned 0 L s

/-- `lSetConsoleOutputCP`. -/
def lSetConsoleOutputCP {σ : Type} (P : Win32 σ) (L : lua_State) (s : Sys σ) : Outcome σ :=
  match luaL_checkinteger L 1 with
  | none => .raised (.argument 1) L s
  | some i =>
    let cp := toDWORD i
    let (r, s) := win32 P (.SetConsoleOutputCP cp) s
    if 0 = r.rv then lGetLastError P L s
    else .returned 0 L s

/-! ## Input (`wincon.c` lines 208-287) -/

/-- `lFlushConsoleInputBuffer`. -/
def lFlushConsoleInputBuffer {σ : Type} (P : Win32 σ) (L : lua_State) (s : Sys σ) :
    Outcome σ :=
  let (h, L) := CONIN L
  let (r, s) := win32 P (.FlushConsoleInputBuffer h) s
  if 0 = r.rv then lGetLastError P L s
  else .returned 0 L s

/-- `lGetNumberOfConsoleInputEvents`. -/
def lGetNumberOfConsoleInputEvents {σ : Type} (P : Win32 σ) (L : lua_State) (s : Sys σ) :
    Outcome σ :=
  let (h, L) := CONIN L
  let (r, s) := win32 P (.GetNumberOfConsoleInputEvents h) s
  if 0 = r.rv then lGetLastError P L s
  else .returned 1 (lua_pushinteger L r.dword) s

/-- `lGetNumberOfConsoleMouseButtons`. -/
def lGetNumberOfConsoleMouseButtons {σ : Type} (P : Win32 σ) (L : lua_State) (s : Sys σ) :
    Outcome σ :=
  let (r, s) := win32 P .GetNumberOfConsoleMouseButtons s
  if 0 = r.rv then lGetLastError P L s
  else .returned 1 (lua_pushinteger L r.dword) s

/-- `lPeekConsoleInput`: count, then (only for a nonzero count `n`) take a
buffer of `n*sizeof(*ip)` bytes from the stack with `_alloca` (the product is
formed in `size_t`, taken as 64 bit), copy up to `n` records into it without
removing them, and translate the `m` records copied.  The `DWORD` `m` is
passed to the `int` parameter of `convertInputs`, whose loop does not run for
a value that is not positive. -/
def lPeekConsoleInput {σ : Type} (P : Win32 σ) (L : lua_State) (s : Sys σ) : Outcome σ :=
  let (h, L) := CONIN L
  let (c, s) := win32 P (.GetNumberOfConsoleInputEvents h) s
  if 0 = c.rv then lGetLastError P L s
  else
    let n := c.dword
    let L := lua_createtable L n 0
    if 0 < n then
      let (a, s) := win32 P (._alloca (n * sizeof_INPUT_RECORD)) s
      if 0 = a.rv then .crashed L s
      else
        let (r, s) := win32 P (.PeekConsoleInput h n) s
        if 0 = r.rv then lGetLastError P L s
        else
          let m := r.dword
          .returned 1 (convertInputs L (toInt32 m).toNat r.records) s
    else .returned 1 L s

/-- `lReadConsoleInput`: as `lPeekConsoleInput`, with `ReadConsoleInput`; the
source takes the buffer from the stack twice, once in a statement of its own
and once more in the argument list of the copy call. -/
def lReadConsoleInput {σ : Type} (P : Win32 σ) (L : lua_State) (s : Sys σ) : Outcome σ :=
  let (h, L) := CONIN L
  let (c, s) := win32 P (.GetNumberOfConsoleInputEvents h) s
  if 0 = c.rv then lGetLastError P L s
  else
    let n := c.dword
    let L := lua_createtable L n 0
    if 0 < n then
      let (a1, s) := win32 P (._alloca (n * sizeof_INPUT_RECORD)) s
      if 0 = a1.rv then .crashed L s
      else
        let (a2, s) := win32 P (._alloca (n * sizeof_INPUT_RECORD)) s
        if 0 = a2.rv then .crashed L s
        else
          let (r, s) := win32 P (.ReadConsoleInput h n) s
          if 0 = r.rv then lGetLastError P L s
          else
            let m := r.dword
            .returned 1 (convertInputs L (toInt32 m).toNat r.records) s
    else .returned 1 L s

/-- `lWaitForConsoleInput`: the wait defaults to `INFINITE`; an argument, when
present, replaces it and is narrowed to the `DWORD` the platform takes. -/
def lWaitForConsoleInput {σ : Type} (P : Win32 σ) (L : lua_State) (s : Sys σ) : Outcome σ :=
  let wait0 : Int := INFINITE
  match (if 1 ≤ lua_gettop L then luaL_checkinteger L 1 else some wait0) with
  | none => .raised (.argument 1) L s
  | some wait =>
    let (h, L) := CONIN L
    let (r, s) := win32 P (.WaitForSingleObject h (toDWORD wait)) s
    if WAIT_FAILED = r.rv then lGetLastError P L s
    else .returned 1 (lua_pushboolean L (if r.rv = WAIT_OBJECT_0 then 1 else 0)) s

/-! ## Output (`wincon.c` lines 289-330) -/

/-- `lFillConsoleOutputAttribute`: arguments x, y, attribute, count. -/
def lFillConsoleOutputAttribute {σ : Type} (P : Win32 σ) (L : lua_State) (s : Sys σ) :
    Outcome σ :=
  match luaL_checkinteger L 1 with
  | none => .raised (.argument 1) L s
  | some x =>
  match luaL_checkinteger L 2 with
  | none => .raised (.argument 2) L s
  | some y =>
  match luaL_checkinteger L 3 with
  | none => .raised (.argument 3) L s
  | some attr =>
  match luaL_checkinteger L 4 with
  | none => .raised (.argument 4) L s
  | some n =>
    let xy : COORD := { X := toSHORT x, Y := toSHORT y }
    let (h, L) := CONOUT L
    let (r, s) := win32 P (.FillConsoleOutputAttribute h (toWORD attr) (toDWORD n) xy) s
    if 0 = r.rv then lGetLastError P L s
    else .returned 0 L s

/-- `lFillConsoleOutputCharacter`: arguments x, y, char, count. -/
def lFillConsoleOutputCharacter {σ : Type} (P : Win32 σ) (L : lua_State) (s : Sys σ) :
    Outcome σ :=
  match luaL_checkinteger L 1 with
  | none => .raised (.argument 1) L s
  | some x =>
  match luaL_checkinteger L 2 with
  | none => .raised (.argument 2) L s
  | some y =>
  match luaL_checkinteger L 3 with
  | none => .raised (.argument 3) L s
  | some ch =>
  match luaL_checkinteger L 4 with
  | none => .raised (.argument 4) L s
  | some n =>
    let xy : COORD := { X := toSHORT x, Y := toSHORT y }
    let (h, L) := CONOUT L
    let (r, s) := win32 P (.FillConsoleOutputCharacter h (toTCHAR ch) (toDWORD n) xy) s
    if 0 = r.rv then lGetLastError P L s
    else .returned 0 L s

/-- `lSetConsoleTextAttribute`. -/
def lSetConsoleTextAttribute {σ : Type} (P : Win32 σ) (L : lua_State) (s : Sys σ) :
    Outcome σ :=
  match luaL_checkinteger L 1 with
  | none => .raised (.argument 1) L s
  | some attr =>
    let (h, L) := CONOUT L
    let (r, s) := win32 P (.SetConsoleTextAttribute h (toWORD attr)) s
    if 0 = r.rv then lGetLastError P L s
    else .returned 0 L s

/-- `lWriteConsole`: text to number of characters written. -/
def lWriteConsole {σ : Type} (P : Win32 σ) (L : lua_State) (s : Sys σ) : Outcome σ :=
  match luaL_checklstring L 1 with
  | none => .raised (.argument 1) L s
  | some text =>
    let n := text.length
    let (h, L) := CONOUT L
    let (r, s) := win32 P (.WriteConsole h text (n % 2 ^ 32)) s
    if 0 = r.rv then lGetLastError P L s
    else .returned 1 (lua_pushinteger L r.dword) s

/-! ## Cursor (`wincon.c` lines 345-378) -/

/-- `lGetConsoleCursorInfo`: returns (visible, size). -/
def lGetConsoleCursorInfo {σ : Type} (P : Win32 σ) (L : lua_State) (s : Sys σ) :
    Outcome σ :=
  let (h, L) := CONOUT L
  let (r, s) := win32 P (.GetConsoleCursorInfo h) s
  if 0 = r.rv then lGetLastError P L s
  else
    let L := lua_pushboolean L r.cursor.bVisible
    let L := lua_pushinteger L r.cursor.dwSize
    .returned 2 L s

/-- The tail of `lSetConsoleCursorInfo` once `ci` is settled: the native call. -/
def setCursorInfoCall {σ : Type} (P : Win32 σ) (L : lua_State) (s : Sys σ)
    (ci : CONSOLE_CURSOR_INFO) : Outcome σ :=
  let (h, L) := CONOUT L
  let (r, s) := win32 P (.SetConsoleCursorInfo h ci) s
  if 0 = r.rv then lGetLastError P L s
  else .returned 0 L s

/-- `lSetConsoleCursorInfo`: arguments visible (default TRUE) and size (default
100).  The size is stored into the `DWORD` field `ci.dwSize` and that field is
what the range test reads. -/
def lSetConsoleCursorInfo {σ : Type} (P : Win32 σ) (L : lua_State) (s : Sys σ) :
    Outcome σ :=
  let ci : CONSOLE_CURSOR_INFO := { dwSize := 100, bVisible := 1 }
  if 1 ≤ lua_gettop L then
    if luaL_checkany L 1 then
      let ci := { ci with bVisible := lua_toboolean L 1 }
      if 2 ≤ lua_gettop L then
        match luaL_checkinteger L 2 with
        | none => .raised (.argument 2) L s
        | some i =>
          let ci := { ci with dwSize := toDWORD i }
          if ci.dwSize < 1 ∨ ci.dwSize > 100 then
            .raised (.value (.string (L.where1 ++ "Size must be in the range 1..100 (had "
              ++ toString (toInt32 ci.dwSize) ++ ")"))) L s
          else setCursorInfoCall P L s ci
      else setCursorInfoCall P L s ci
    else .raised (.argument 1) L s
  else setCursorInfoCall P L s ci

/-- `lSetConsoleCursorPosition`: arguments x and y, both defaulting to 0. -/
def lSetConsoleCursorPosition {σ : Type} (P : Win32 σ) (L : lua_State) (s : Sys σ) :
    Outcome σ :=
  match (if 1 ≤ lua_gettop L then luaL_checkinteger L 1 else some 0) with
  | none => .raised (.argument 1) L s
  | some x =>
  match (if 2 ≤ lua_gettop L then luaL_checkinteger L 2 else some 0) with
  | none => .raised (.argument 2) L s
  | some y =>
    let xy : COORD := { X := toSHORT x, Y := toSHORT y }
    let (h, L) := CONOUT L
    let (r, s) := win32 P (.SetConsoleCursorPosition h xy) s
    if 0 = r.rv then lGetLastError P L s
    else .returned 0 L s

/-! ## Screen buffer (`wincon.c` lines 380-399) -/

/-- `lGetConsoleScreenBufferInfo`. -/
def lGetConsoleScreenBufferInfo {σ : Type} (P : Win32 σ) (L : lua_State) (s : Sys σ) :
    Outcome σ :=
  let (h, L) := CONOUT L
  let (r, s) := win32 P (.GetConsoleScreenBufferInfo h) s
  if 0 = r.rv then lGetLastError P L s
  else
    let bi := r.buffer
    let L := lua_createtable L 0 11
    let L := lua_setfield (lua_pushinteger L bi.dwSize.X) (-2) "columns"
    let L := lua_setfield (lua_pushinteger L bi.dwSize.Y) (-2) "rows"
    let L := lua_setfield (lua_pushinteger L bi.dwCursorPosition.X) (-2) "cx"
    let L := lua_setfield (lua_pushinteger L bi.dwCursorPosition.Y) (-2) "cy"
    let L := lua_setfield (lua_pushinteger L bi.wAttributes) (-2) "attributes"
    let L := lua_setfield (lua_pushinteger L bi.srWindow.Left) (-2) "left"
    let L := lua_setfield (lua_pushinteger L bi.srWindow.Top) (-2) "top"
    let L := lua_setfield (lua_pushinteger L bi.srWindow.Right) (-2) "right"
    let L := lua_setfield (lua_pushinteger L bi.srWindow.Bottom) (-2) "bottom"
    let L := lua_setfield (lua_pushinteger L bi.dwMaximumWindowSize.X) (-2) "maxcols"
    let L := lua_setfield (lua_pushinteger L bi.dwMaximumWindowSize.Y) (-2) "maxrows"
    .returned 1 L s

/-! ## Titles (`wincon.c` lines 412-440) -/

/-- `gettitle(L,fn)`: `fn` fills a buffer of 4096 characters and returns a
length `rv`.  `GetLastError` is consulted only when `rv` is 0; the literal
`TOSTRING(__LINE__)` stands on line 421 of the source. -/
def gettitle {σ : Type} (P : Win32 σ) (L : lua_State) (s : Sys σ) (fn : Nat → Call) :
    Outcome σ :=
  let (r, s) := win32 P (fn (4 * 1024)) s
  if 0 = r.rv then
    let (e, s) := win32 P .GetLastError s
    if e.rv ≠ ERROR_SUCCESS then lGetLastError P L s
    else
      let L := lua_pushnil L
      let L := lua_pushstring L ("Abnormal error " ++ "421")
      .returned 2 L s
  else
    .returned 1 (lua_pushstring L (String.mk (r.text.take r.rv))) s

/-- `lGetConsoleOriginalTitle`. -/
def lGetConsoleOriginalTitle {σ : Type} (P : Win32 σ) (L : lua_State) (s : Sys σ) :
    Outcome σ :=
  gettitle P L s .GetConsoleOriginalTitle

/-- `lGetConsoleTitle`. -/
def lGetConsoleTitle {σ : Type} (P : Win32 σ) (L : lua_State) (s : Sys σ) : Outcome σ :=
  gettitle P L s .GetConsoleTitle

/-- `lSetConsoleTitle`. -/
def lSetConsoleTitle {σ : Type} (P : Win32 σ) (L : lua_State) (s : Sys σ) : Outcome σ :=
  match luaL_checklstring L 1 with
  | none => .raised (.argument 1) L s
  | some text =>
    let (r, s) := win32 P (.SetConsoleTitle (cstring text)) s
    if 0 = r.rv then lGetLastError P L s
    else .returned 0 L s

/-! ## The library table and module start (`wincon.c` lines 484-641) -/

/-- The entries of `winconlib[]`, in order. -/
inductive Op where
  | GetConsoleInputMode
  | GetConsoleOutputMode
  | SetConsoleInputMode
  | SetConsoleOutputMode
  | GetConsoleCP
  | GetConsoleOutputCP
  | SetConsoleCP
  | SetConsoleOutputCP
  | FlushConsoleInputBuffer
  | GetNumberOfConsoleInputEvents
  | GetNumberOfConsoleMouseButtons
  | PeekConsoleInput
  | ReadConsoleInput
  | WaitForConsoleInput
  | FillConsoleOutputAttribute
  | FillConsoleOutputCharacter
  | SetConsoleTextAttribute
  | WriteConsole
  | GetConsoleCursorInfo
  | SetConsoleCursorInfo
  | SetConsoleCursorPosition
  | GetConsoleScreenBufferInfo
  | GetConsoleOriginalTitle
  | GetConsoleTitle
  | SetConsoleTitle
  deriving DecidableEq, Repr

/-- The registration name of an entry, `#x` in `C(x)`. -/
def Op.name : Op → String
  | .GetConsoleInputMode => "GetConsoleInputMode"
  | .GetConsoleOutputMode => "GetConsoleOutputMode"
  | .SetConsoleInputMode => "SetConsoleInputMode"
  | .SetConsoleOutputMode => "SetConsoleOutputMode"
  | .GetConsoleCP => "GetConsoleCP"
  | .GetConsoleOutputCP => "GetConsoleOutputCP"
  | .SetConsoleCP => "SetConsoleCP"
  | .SetConsoleOutputCP => "SetConsoleOutputCP"
  | .FlushConsoleInputBuffer => "FlushConsoleInputBuffer"
  | .GetNumberOfConsoleInputEvents => "GetNumberOfConsoleInputEvents"
  | .GetNumberOfConsoleMouseButtons => "GetNumberOfConsoleMouseButtons"
  | .PeekConsoleInput => "PeekConsoleInput"
  | .ReadConsoleInput => "ReadConsoleInput"
  | .WaitForConsoleInput => "WaitForConsoleInput"
  | .FillConsoleOutputAttribute => "FillConsoleOutputAttribute"
  | .FillConsoleOutputCharacter => "FillConsoleOutputCharacter"
  | .SetConsoleTextAttribute => "SetConsoleTextAttribute"
  | .WriteConsole => "WriteConsole"
  | .GetConsoleCursorInfo => "GetConsoleCursorInfo"
  | .SetConsoleCursorInfo => "SetConsoleCursorInfo"
  | .SetConsoleCursorPosition => "SetConsoleCursorPosition"
  | .GetConsoleScreenBufferInfo => "GetConsoleScreenBufferInfo"
  | .GetConsoleOriginalTitle => "GetConsoleOriginalTitle"
  | .GetConsoleTitle => "GetConsoleTitle"
  | .SetConsoleTitle => "SetConsoleTitle"

/-- The C function of an entry, `l##x` in `C(x)`. -/
def winconlib {σ : Type} (P : Win32 σ) : Op → lua_State → Sys σ → Outcome σ
  | .GetConsoleInputMode => lGetConsoleInputMode P
  | .GetConsoleOutputMode => lGetConsoleOutputMode P
  | .SetConsoleInputMode => lSetConsoleInputMode P
  | .SetConsoleOutputMode => lSetConsoleOutputMode P
  | .GetConsoleCP => lGetConsoleCP P
  | .GetConsoleOutputCP => lGetConsoleOutputCP P
  | .SetConsoleCP => lSetConsoleCP P
  | .SetConsoleOutputCP => lSetConsoleOutputCP P
  | .FlushConsoleInputBuffer => lFlushConsoleInputBuffer P
  | .GetNumberOfConsoleInputEvents => lGetNumberOfConsoleInputEvents P
  | .GetNumberOfConsoleMouseButtons => lGetNumberOfConsoleMouseButtons P
  | .PeekConsoleInput => lPeekConsoleInput P
  | .ReadConsoleInput => lReadConsoleInput P
  | .WaitForConsoleInput => lWaitForConsoleInput P
  | .FillConsoleOutputAttribute => lFillConsoleOutputAttribute P
  | .FillConsoleOutputCharacter => lFillConsoleOutputCharacter P
  | .SetConsoleTextAttribute => lSetConsoleTextAttribute P
  | .WriteConsole => lWriteConsole P
  | .GetConsoleCursorInfo => lGetConsoleCursorInfo P
  | .SetConsoleCursorInfo => lSetConsoleCursorInfo P
  | .SetConsoleCursorPosition => lSetConsoleCursorPosition P
  | .GetConsoleScreenBufferInfo => lGetConsoleScreenBufferInfo P
  | .GetConsoleOriginalTitle => lGetConsoleOriginalTitle P
  | .GetConsoleTitle => lGetConsoleTitle P
  | .SetConsoleTitle => lSetConsoleTitle P

/-- An empty frame, used to read off what a converter pushes. -/
def emptyFrame : lua_State :=
  { stack := [], registry := fun _ => .nil, ar_name := "", where1 := "" }

/-- The value `convertInput` pushes for a record, if it pushes one. -/
def translate (r : INPUT_RECORD) : Option LuaValue :=
  let (c, L1) := convertInput emptyFrame r
  if c ≠ 0 then L1.stack.head? else none

/-- The discriminants with a `case` in `convertInput`. -/
def recognized (r : INPUT_RECORD) : Bool :=
  r.EventType = KEY_EVENT || r.EventType = MOUSE_EVENT ||
    r.EventType = WINDOW_BUFFER_SIZE_EVENT

/-- The association list of a Lua sequence holding `vs` at the indices
`j+1, j+2, ...`. -/
def arrayFrom : Nat → List LuaValue → List (LuaKey × LuaValue)
  | _, [] => []
  | j, v :: vs => (.int ((j + 1 : Nat) : Int), v) :: arrayFrom (j + 1) vs

/-- The scenario of the specification: a key-down of `A`, a focus event, a
resize to 80 by 25. -/
def scenarioRecords : List INPUT_RECORD :=
  [ { EventType := KEY_EVENT,
      KeyEvent := { bKeyDown := 1, wRepeatCount := 1, wVirtualKeyCode := 0x41 } },
    { EventType := FOCUS_EVENT },
    { EventType := WINDOW_BUFFER_SIZE_EVENT,
      WindowBufferSizeEvent := { dwSize := { X := 80, Y := 25 } } } ]

/-- A key event, a mouse event and a resize event. -/
def recognizedRecords : List INPUT_RECORD :=
  [ { EventType := KEY_EVENT,
      KeyEvent := { bKeyDown := 1, wRepeatCount := 2, wVirtualKeyCode := 0x0D,
                    dwControlKeyState := 0x10 } },
    { EventType := MOUSE_EVENT,
      MouseEvent := { dwMousePosition := { X := 4, Y := 9 }, dwButtonState := 1,
                      dwControlKeyState := 0x20, dwEventFlags := 2 } },
    { EventType := WINDOW_BUFFER_SIZE_EVENT,
      WindowBufferSizeEvent := { dwSize := { X := 120, Y := 30 } } } ]

/-- The text that `lGetLastError` puts after the function name when it starts
in platform state `w`. -/
def errorText {σ : Type} (P : Win32 σ) (w : σ) : String :=
  let e := P .GetLastError w
  let r := P (.FormatMessage (FORMAT_MESSAGE_ALLOCATE_BUFFER ||| FORMAT_MESSAGE_FROM_SYSTEM)
    e.1.rv) e.2
  if 0 ≠ r.1.rv then String.mk r.1.text
  else "Win32 error " ++ toString (P .GetLastError r.2).1.rv

/-- The native calls `lGetLastError` makes. -/
def isReporterCall : Call → Bool
  | .GetLastError => true
  | .FormatMessage _ _ => true
  | .LocalFree => true
  | _ => false

/-- Whether a logged native call came back with the failure indicator the
module tests for: `WAIT_FAILED` for the wait, 0 for the `BOOL` functions.  The
calls of the error reporter, the code page getters (whose result is returned
untested), the title getters (whose result 0 is a failure only together with
a last error code, see `gettitle`) and the stack allocation of the C runtime
(which is no console call and returns no failure indicator) are not covered. -/
def reportsFailure : Call × Ret → Bool
  | (.WaitForSingleObject _ _, r) => decide (r.rv = WAIT_FAILED)
  | (.GetLastError, _) => false
  | (.FormatMessage _ _, _) => false
  | (.LocalFree, _) => false
  | (.GetStdHandle _, _) => false
  | (.GetConsoleCP, _) => false
  | (.GetConsoleOutputCP, _) => false
  | (.GetConsoleOriginalTitle _, _) => false
  | (.GetConsoleTitle _, _) => false
  | (._alloca _, _) => false
  | (_, r) => decide (r.rv = 0)

/-- The outcome `o` is what `lGetLastError` returns when entered with the
function name of `L`: nil and the string `name():text`. -/
def IsErrorValue {σ : Type} (P : Win32 σ) (L : lua_State) (o : Outcome σ) : Prop :=
  ∃ (L1 : lua_State) (s1 : Sys σ), o = lGetLastError P L1 s1 ∧ L1.ar_name = L.ar_name ∧
    o.results = [.nil, .string (L.ar_name ++ "():" ++ errorText P s1.world)]

/-! ## A simulated console for concrete instances -/

/-- State of a small simulated console, used to instantiate statements at
concrete inputs. -/
structure Console where
  lastError : Nat := 0
  stdIn : Int := 3
  stdOut : Int := 7
  inputMode : Nat := 0
  outputMode : Nat := 0
  queue : List INPUT_RECORD := []
  title : List Char := []
  titleError : Nat := 0
  cursor : CONSOLE_CURSOR_INFO := { dwSize := 25, bVisible := 1 }
  stackFree : Nat := 1048576

/-- Reply of the simulated console to a call on a handle that is not the
expected one: failure with `ERROR_INVALID_HANDLE` (6). -/
def Console.badHandle (w : Console) : Ret × Console :=
  ({ rv := 0 }, { w with lastError := 6 })

/-- The simulated console.  It knows the message text of error 6 only; for any
other code `FormatMessage` fails and sets the last error to
`ERROR_MR_MID_NOT_FOUND` (317).  A stack allocation succeeds while the bytes
asked for fit into `stackFree`, which it then reduces. -/
def console : Win32 Console
  | .GetLastError, w => ({ rv := w.lastError }, w)
  | .FormatMessage _ id, w =>
    if id = 6 then ({ rv := 24, text := "The handle is invalid.\r\n".data }, w)
    else ({ rv := 0 }, { w with lastError := 317 })
  | .GetStdHandle n, w =>
    if n = STD_INPUT_HANDLE then ({ handle := w.stdIn }, w)
    else if n = STD_OUTPUT_HANDLE then ({ handle := w.stdOut }, w)
    else ({ handle := INVALID_HANDLE_VALUE }, { w with lastError := 6 })
  | .GetConsoleMode h, w =>
    if h = w.stdIn then ({ rv := 1, dword := w.inputMode }, w)
    else if h = w.stdOut then ({ rv := 1, dword := w.outputMode }, w)
    else w.badHandle
  | .SetConsoleMode h m, w =>
    if h = w.stdIn then ({ rv := 1 }, { w with inputMode := m })
    else if h = w.stdOut then ({ rv := 1 }, { w with outputMode := m })
    else w.badHandle
  | .GetNumberOfConsoleInputEvents h, w =>
    if h = w.stdIn then ({ rv := 1, dword := w.queue.length }, w) else w.badHandle
  | .PeekConsoleInput h n, w =>
    if h = w.stdIn then
      ({ rv := 1, dword := (w.queue.take n).length, records := w.queue.take n }, w)
    else w.badHandle
  | .ReadConsoleInput h n, w =>
    if h = w.stdIn then
      ({ rv := 1, dword := (w.queue.take n).length, records := w.queue.take n },
       { w with queue := w.queue.drop n })
    else w.badHandle
  | .WaitForSingleObject h _, w =>
    if h = w.stdIn then
      ({ rv := if w.queue.isEmpty then WAIT_TIMEOUT else WAIT_OBJECT_0 }, w)
    else ({ rv := WAIT_FAILED }, { w with lastError := 6 })
  | .SetConsoleCursorInfo h ci, w =>
    if h = w.stdOut then ({ rv := 1 }, { w with cursor := ci }) else w.badHandle
  | .GetConsoleTitle _, w =>
    if w.titleError = 0 then
      ({ rv := w.title.length, text := w.title }, { w with lastError := 0 })
    else ({ rv := 0 }, { w with lastError := w.titleError })
  | .GetConsoleOriginalTitle _, w =>
    if w.titleError = 0 then
      ({ rv := w.title.length, text := w.title }, { w with lastError := 0 })
    else ({ rv := 0 }, { w with lastError := w.titleError })
  | ._alloca size, w =>
    if size ≤ w.stackFree then ({ rv := 1 }, { w with stackFree := w.stackFree - size })
    else ({ rv := 0 }, w)
  | _, w => ({ rv := 1 }, w)

/-- A Lua state after a successful start on the simulated console, running a
function called `name` with the given frame (top of the stack first). -/
def started (name : String) (frame : List LuaValue) : lua_State :=
  { stack := frame,
    registry := fun k => match k with
      | .hin => .integer 3
      | .hout => .integer 7,
    ar_name := name, where1 := "" }

/-- A Lua state whose registry holds handles the simulated console rejects. -/
def startedBad (name : String) (frame : List LuaValue) : lua_State :=
  { stack := frame, registry := fun _ => .integer 99, ar_name := name, where1 := "" }


/-! # Properties -/

/-! ## Event translation -/

theorem convertKeyInput_eq (L : lua_State) (ev : KEY_EVENT_RECORD) :
    convertKeyInput L ev = (1, lua_push L (.table [(.str "type", .string "key"),
      (.str "keydown", .boolean (decide (ev.bKeyDown ≠ 0))), (.str "count", .integer ev.wRepeatCount),
      (.str "vkey", .integer ev.wVirtualKeyCode), (.str "state", .integer ev.dwControlKeyState)])) := rfl

theorem convertMouseInput_eq (L : lua_State) (ev : MOUSE_EVENT_RECORD) :
    convertMouseInput L ev = (1, lua_push L (.table [(.str "type", .string "mouse"),
      (.str "x", .integer ev.dwMousePosition.X), (.str "y", .integer ev.dwMousePosition.Y),
      (.str "buttons", .integer ev.dwButtonState),
      (.str "state", .integer ev.dwControlKeyState), (.str "event", .integer ev.dwEventFlags)])) := rfl

theorem convertResizeInput_eq (L : lua_State) (ev : WINDOW_BUFFER_SIZE_RECORD) :
    convertResizeInput L ev = (1, lua_push L (.table [(.str "type", .string "resize"),
      (.str "columns", .integer ev.dwSize.X), (.str "rows", .integer ev.dwSize.Y)])) := rfl

theorem translate_cases (r : INPUT_RECORD) :
    translate r =
      if r.EventType = KEY_EVENT then
        some (.table [(.str "type", .string "key"),
          (.str "keydown", .boolean (decide (r.KeyEvent.bKeyDown ≠ 0))),
          (.str "count", .integer r.KeyEvent.wRepeatCount),
          (.str "vkey", .integer r.KeyEvent.wVirtualKeyCode),
          (.str "state", .integer r.KeyEvent.dwControlKeyState)])
      else if r.EventType = MOUSE_EVENT then
        some (.table [(.str "type", .string "mouse"),
          (.str "x", .integer r.MouseEvent.dwMousePosition.X),
          (.str "y", .integer r.MouseEvent.dwMousePosition.Y),
          (.str "buttons", .integer r.MouseEvent.dwButtonState),
          (.str "state", .integer r.MouseEvent.dwControlKeyState),
          (.str "event", .integer r.MouseEvent.dwEventFlags)])
      else if r.EventType = WINDOW_BUFFER_SIZE_EVENT then
        some (.table [(.str "type", .string "resize"),
          (.str "columns", .integer r.WindowBufferSizeEvent.dwSize.X),
          (.str "rows", .integer r.WindowBufferSizeEvent.dwSize.Y)])
      else none := by
  unfold translate convertInput
  split_ifs <;> rfl

theorem convertInput_eq (L : lua_State) (r : INPUT_RECORD) :
    convertInput L r = match translate r with
      | some v => (1, lua_push L v)
      | none => (0, L) := by
  rw [translate_cases]
  unfold convertInput
  split_ifs <;> rfl

theorem translate_isSome (r : INPUT_RECORD) : (translate r).isSome = recognized r := by
  rw [translate_cases]
  unfold recognized
  split_ifs <;> simp [*]

theorem translate_ne_nil (r : INPUT_RECORD) (v : LuaValue) (h : translate r = some v) :
    ∃ t, v = .table t := by
  rw [translate_cases] at h
  split_ifs at h <;> exact ⟨_, (Option.some.inj h).symm⟩

theorem convertInputsFrom_eq (recs : List INPUT_RECORD) :
    ∀ (j : Nat) (L : lua_State) (T : List (LuaKey × LuaValue)),
      (∀ e ∈ T, ∀ m : Nat, j < m → e.1 ≠ .int (m : Int)) →
      convertInputsFrom recs j (lua_push L (.table T)) =
        lua_push L (.table (T ++ arrayFrom j (recs.filterMap translate))) := by
  induction recs with
  | nil => intro j L T _; simp [convertInputsFrom, arrayFrom]
  | cons r rest ih =>
    intro j L T hT
    rw [convertInputsFrom, convertInput_eq]
    cases hr : translate r with
    | none => simp [List.filterMap_cons, hr, ih j L T hT]
    | some v =>
      obtain ⟨t, rfl⟩ := translate_ne_nil r v hr
      have hfil : T.filter (fun e => decide (e.1 ≠ LuaKey.int ((j + 1 : Nat) : Int))) = T := by
        rw [List.filter_eq_self]
        intro e he
        simpa using hT e he (j + 1) (Nat.lt_succ_self j)
      have hstep : lua_rawseti (lua_push (lua_push L (.table T)) (.table t)) (-2) ((j + 1 : Nat) : Int)
          = lua_push L (.table (T ++ [(.int ((j + 1 : Nat) : Int), .table t)])) := by
        simp only [lua_rawseti, setAt, lua_push, updateAt, LuaValue.set, tableSet, hfil]
      simp only [List.filterMap_cons, hr, arrayFrom]
      show convertInputsFrom rest (j + 1) (lua_rawseti _ (-2) _) = _
      rw [hstep, ih (j + 1) L _ ?_]
      · simp
      · intro e he m hm
        rcases List.mem_append.mp he with h | h
        · exact hT e h m (by omega)
        · simp at h
          subst h
          simp
          omega

theorem tableGet_cons (k k' : LuaKey) (v : LuaValue) (t : List (LuaKey × LuaValue)) :
    tableGet ((k, v) :: t) k' = if k = k' then v else tableGet t k' := by
  unfold tableGet
  by_cases h : k = k' <;> simp [List.find?_cons, h]

theorem tableGet_arrayFrom (vs : List LuaValue) :
    ∀ (j : Nat) (i : Int), tableGet (arrayFrom j vs) (.int i) =
      if (j : Int) < i ∧ i ≤ j + vs.length then vs[(i - j - 1).toNat]?.getD .nil else .nil := by
  induction vs with
  | nil => intro j i; simp [arrayFrom, tableGet]
  | cons v vs ih =>
    intro j i
    rw [arrayFrom, tableGet_cons, ih (j + 1) i]
    by_cases h : ((j + 1 : Nat) : Int) = i
    · subst h
      simp
    · have h' : ¬ (LuaKey.int ((j + 1 : Nat) : Int) = LuaKey.int i) := by
        intro hh; exact h (LuaKey.int.inj hh)
      rw [if_neg h']
      by_cases hlo : ((j + 1 : Nat) : Int) < i
      · by_cases hhi : i ≤ j + (vs.length + 1 : Nat)
        · have e : (i - j - 1).toNat = (i - ((j + 1 : Nat) : Int) - 1).toNat + 1 := by omega
          rw [if_pos ⟨hlo, by push_cast at hhi ⊢; omega⟩, if_pos ⟨by omega, by simpa using hhi⟩]
          rw [e, List.getElem?_cons_succ]
        · rw [if_neg (by push_cast at hhi ⊢; omega), if_neg (by simp at hhi ⊢; omega)]
      · rw [if_neg (by omega), if_neg (by push_cast at h hlo ⊢; omega)]

theorem tableGet_arrayFrom_str (vs : List LuaValue) (s : String) :
    ∀ (j : Nat), tableGet (arrayFrom j vs) (.str s) = .nil := by
  induction vs with
  | nil => intro j; simp [arrayFrom, tableGet]
  | cons v vs ih => intro j; rw [arrayFrom, tableGet_cons, ih (j + 1)]; simp

theorem filterMap_translate (recs : List INPUT_RECORD) :
    (recs.filterMap translate).map some = (recs.filter recognized).map translate := by
  induction recs with
  | nil => rfl
  | cons r rest ih =>
    have hs := translate_isSome r
    cases hr : translate r with
    | none =>
      rw [hr] at hs
      have : recognized r = false := by simpa using hs.symm
      simp [List.filterMap_cons, hr, List.filter_cons, this, ih]
    | some v =>
      rw [hr] at hs
      have : recognized r = true := by simpa using hs.symm
      simp [List.filterMap_cons, hr, List.filter_cons, this, ih]

theorem convertInputs_eq (L : lua_State) (n : Nat) (recs : List INPUT_RECORD) :
    convertInputs (lua_createtable L n 0) n recs =
      lua_push L (.table (arrayFrom 0 ((recs.take n).filterMap translate))) := by
  unfold convertInputs lua_createtable
  rw [convertInputsFrom_eq _ 0 L [] (by simp)]
  simp

/-- C2: for every sequence of raw records, `convertInputs` leaves a table that
holds, at the contiguous indices 1..k, exactly the values `convertInput` pushes
for the recognized records, in their original order, and nothing else, k being
the number of recognized records; no error can arise.  On the scenario (key
`A` down, focus, resize 80 by 25) the table is exactly the key event followed
by the resize event. -/
theorem C2_translateSequence_drops_unrecognized (L : lua_State) (recs : List INPUT_RECORD) :
    (∃ T : LuaValue,
      convertInputs (lua_createtable L recs.length 0) recs.length recs = lua_push L T ∧
      (∀ i : Nat, (h : i < (recs.filter recognized).length) →
        some (T.index ((i : Int) + 1)) = translate ((recs.filter recognized)[i]) ∧
        T.index ((i : Int) + 1) ≠ .nil) ∧
      (∀ i : Int, ¬ (1 ≤ i ∧ i ≤ ((recs.filter recognized).length : Int)) → T.index i = .nil) ∧
      (∀ s : String, T.field s = .nil)) ∧
    convertInputs (lua_createtable L 3 0) 3 scenarioRecords =
      lua_push L (.table
        [(.int 1, .table [(.str "type", .string "key"), (.str "keydown", .boolean true),
            (.str "count", .integer 1), (.str "vkey", .integer 0x41), (.str "state", .integer 0)]),
         (.int 2, .table [(.str "type", .string "resize"), (.str "columns", .integer 80),
            (.str "rows", .integer 25)])]) := by
  refine ⟨⟨_, convertInputs_eq L _ recs, ?_, ?_, ?_⟩, rfl⟩
  · intro i hi
    have hm := filterMap_translate recs
    have hlen : (recs.filterMap translate).length = (recs.filter recognized).length := by
      simpa using congrArg List.length hm
    have hget := congrArg (fun l => l[i]?) hm
    simp only [List.getElem?_map] at hget
    rw [List.getElem?_eq_getElem (by omega), List.getElem?_eq_getElem hi] at hget
    simp only [Option.map_some'] at hget
    have hb : i < (recs.filterMap translate).length := by omega
    have hidx : LuaValue.index (.table (arrayFrom 0 ((List.take recs.length recs).filterMap translate)))
        ((i : Int) + 1) = (recs.filterMap translate)[i] := by
      simp only [LuaValue.index, LuaValue.get, List.take_length]
      rw [tableGet_arrayFrom]
      rw [if_pos (by constructor <;> (try push_cast) <;> omega)]
      have : ((i : Int) + 1 - ((0 : Nat) : Int) - 1).toNat = i := by simp
      rw [this, List.getElem?_eq_getElem (by omega)]
      rfl
    rw [hidx]
    refine ⟨Option.some.inj hget, ?_⟩
    · obtain ⟨t, ht⟩ := translate_ne_nil _ _ (Option.some.inj hget).symm
      rw [ht]; intro h; cases h
  · intro i hi
    have hlen : (recs.filterMap translate).length = (recs.filter recognized).length := by
      simpa using congrArg List.length (filterMap_translate recs)
    simp only [LuaValue.index, LuaValue.get, List.take_length]
    rw [tableGet_arrayFrom, if_neg]
    rw [hlen]; push_cast; omega
  · intro s
    simp only [LuaValue.field, LuaValue.get]
    exact tableGet_arrayFrom_str _ _ _

theorem filter_recognized_of_all (recs : List INPUT_RECORD)
    (h : ∀ r ∈ recs, r.EventType = KEY_EVENT ∨ r.EventType = MOUSE_EVENT ∨
      r.EventType = WINDOW_BUFFER_SIZE_EVENT) : recs.filter recognized = recs := by
  rw [List.filter_eq_self]
  intro r hr
  rcases h r hr with h | h | h <;> simp [recognized, h]

/-- C1: when every discriminant is Key, Mouse or Resize, `convertInputs` leaves
a table with entries exactly at the indices 1..n (n the number of records), and
entry i is the table of type "key" / "mouse" / "resize" selected by the i-th
discriminant, each field holding the raw field unchanged. -/
theorem C1_translateSequence_recognized (L : lua_State) (recs : List INPUT_RECORD)
    (h : ∀ r ∈ recs, r.EventType = KEY_EVENT ∨ r.EventType = MOUSE_EVENT ∨
      r.EventType = WINDOW_BUFFER_SIZE_EVENT) :
    ∃ T : LuaValue,
      convertInputs (lua_createtable L recs.length 0) recs.length recs = lua_push L T ∧
      (∀ i : Int, ¬ (1 ≤ i ∧ i ≤ (recs.length : Int)) → T.index i = .nil) ∧
      (∀ s : String, T.field s = .nil) ∧
      ∀ i : Nat, (hi : i < recs.length) →
        T.index ((i : Int) + 1) ≠ .nil ∧
        (recs[i].EventType = KEY_EVENT →
          T.index ((i : Int) + 1) = .table [(.str "type", .string "key"),
            (.str "keydown", .boolean (decide (recs[i].KeyEvent.bKeyDown ≠ 0))),
            (.str "count", .integer recs[i].KeyEvent.wRepeatCount),
            (.str "vkey", .integer recs[i].KeyEvent.wVirtualKeyCode),
            (.str "state", .integer recs[i].KeyEvent.dwControlKeyState)]) ∧
        (recs[i].EventType = MOUSE_EVENT →
          T.index ((i : Int) + 1) = .table [(.str "type", .string "mouse"),
            (.str "x", .integer recs[i].MouseEvent.dwMousePosition.X),
            (.str "y", .integer recs[i].MouseEvent.dwMousePosition.Y),
            (.str "buttons", .integer recs[i].MouseEvent.dwButtonState),
            (.str "state", .integer recs[i].MouseEvent.dwControlKeyState),
            (.str "event", .integer recs[i].MouseEvent.dwEventFlags)]) ∧
        (recs[i].EventType = WINDOW_BUFFER_SIZE_EVENT →
          T.index ((i : Int) + 1) = .table [(.str "type", .string "resize"),
            (.str "columns", .integer recs[i].WindowBufferSizeEvent.dwSize.X),
            (.str "rows", .integer recs[i].WindowBufferSizeEvent.dwSize.Y)]) := by
  have hall := filter_recognized_of_all recs h
  have hm := filterMap_translate recs
  rw [hall] at hm
  have hlen : (recs.filterMap translate).length = recs.length := by
    simpa using congrArg List.length hm
  refine ⟨_, convertInputs_eq L _ recs, ?_, ?_, ?_⟩
  · intro i hi
    simp only [LuaValue.index, LuaValue.get, List.take_length]
    rw [tableGet_arrayFrom, if_neg]
    rw [hlen]; push_cast; omega
  · intro s
    simp only [LuaValue.field, LuaValue.get]
    exact tableGet_arrayFrom_str _ _ _
  · intro i hi
    have hget := congrArg (fun l => l[i]?) hm
    simp only [List.getElem?_map] at hget
    rw [List.getElem?_eq_getElem (by omega), List.getElem?_eq_getElem hi] at hget
    simp only [Option.map_some'] at hget
    have hb : i < (recs.filterMap translate).length := by omega
    have hidx : LuaValue.index (.table (arrayFrom 0 ((List.take recs.length recs).filterMap translate)))
        ((i : Int) + 1) = (recs.filterMap translate)[i] := by
      simp only [LuaValue.index, LuaValue.get, List.take_length]
      rw [tableGet_arrayFrom]
      rw [if_pos (by constructor <;> (try push_cast) <;> omega)]
      have : ((i : Int) + 1 - ((0 : Nat) : Int) - 1).toNat = i := by simp
      rw [this, List.getElem?_eq_getElem (by omega)]
      rfl
    have hsome : translate recs[i] =
        some (LuaValue.index (.table (arrayFrom 0 ((List.take recs.length recs).filterMap translate)))
          ((i : Int) + 1)) := by
      rw [hidx]; exact (Option.some.inj hget).symm
    rw [translate_cases] at hsome
    refine ⟨?_, ?_, ?_, ?_⟩
    · obtain ⟨t, ht⟩ := translate_ne_nil _ _ (by rw [translate_cases]; exact hsome)
      rw [ht]; intro h; cases h
    · intro hk
      rw [if_pos hk] at hsome
      exact (Option.some.inj hsome).symm
    · intro hk
      have hne : ¬ recs[i].EventType = KEY_EVENT := by rw [hk]; decide
      rw [if_neg hne, if_pos hk] at hsome
      exact (Option.some.inj hsome).symm
    · intro hk
      have hne : ¬ recs[i].EventType = KEY_EVENT := by rw [hk]; decide
      have hne2 : ¬ recs[i].EventType = MOUSE_EVENT := by rw [hk]; decide
      rw [if_neg hne, if_neg hne2, if_pos hk] at hsome
      exact (Option.some.inj hsome).symm

/-! ## Platform calls, error reporter, registry -/

variable {σ : Type}

@[simp] theorem win32_fst (P : Win32 σ) (c : Call) (s : Sys σ) :
    (win32 P c s).1 = (P c s.world).1 := rfl
@[simp] theorem win32_world (P : Win32 σ) (c : Call) (s : Sys σ) :
    (win32 P c s).2.world = (P c s.world).2 := rfl
@[simp] theorem win32_log (P : Win32 σ) (c : Call) (s : Sys σ) :
    (win32 P c s).2.log = s.log ++ [(c, (P c s.world).1)] := rfl

theorem lGetLastError_results (P : Win32 σ) (L : lua_State) (s : Sys σ) :
    (lGetLastError P L s).results = [.nil, .string (L.ar_name ++ "():" ++ errorText P s.world)] := by
  unfold lGetLastError errorText
  by_cases h : 0 ≠ (P (.FormatMessage (FORMAT_MESSAGE_ALLOCATE_BUFFER ||| FORMAT_MESSAGE_FROM_SYSTEM) (P .GetLastError s.world).1.rv) (P .GetLastError s.world).2).1.rv
  · simp [h, Outcome.results, lua_pushstring, lua_pushnil, lua_push]
  · have e : "():Win32 error " = "():" ++ "Win32 error " := by decide
    simp [h, Outcome.results, lua_pushstring, lua_pushnil, lua_push, String.append_assoc]
    rw [e, String.append_assoc]

@[simp] theorem lua_push_registry (L : lua_State) (v : LuaValue) :
    (lua_push L v).registry = L.registry := rfl
@[simp] theorem lua_push_ar_name (L : lua_State) (v : LuaValue) :
    (lua_push L v).ar_name = L.ar_name := rfl
@[simp] theorem setAt_registry (L : lua_State) (idx : Int) (k : LuaKey) :
    (setAt L idx k).registry = L.registry := by
  unfold setAt; split <;> rfl
@[simp] theorem setAt_ar_name (L : lua_State) (idx : Int) (k : LuaKey) :
    (setAt L idx k).ar_name = L.ar_name := by
  unfold setAt; split <;> rfl

@[simp] theorem state_returned (n : Nat) (L : lua_State) (s : Sys σ) :
    (Outcome.returned n L s).state = L := rfl
@[simp] theorem state_raised (e : LuaError) (L : lua_State) (s : Sys σ) :
    (Outcome.raised e L s).state = L := rfl
@[simp] theorem sys_returned (n : Nat) (L : lua_State) (s : Sys σ) :
    (Outcome.returned n L s).sys = s := rfl
@[simp] theorem sys_raised (e : LuaError) (L : lua_State) (s : Sys σ) :
    (Outcome.raised e L s).sys = s := rfl
@[simp] theorem state_crashed (L : lua_State) (s : Sys σ) :
    (Outcome.crashed L s).state = L := rfl
@[simp] theorem sys_crashed (L : lua_State) (s : Sys σ) :
    (Outcome.crashed L s).sys = s := rfl

/-- Witness for C1 on a key, a mouse and a resize record. -/
theorem C1_translateSequence_recognized_witness :
    ∃ T : LuaValue,
      convertInputs (lua_createtable emptyFrame 3 0) 3 recognizedRecords = lua_push emptyFrame T ∧
      T.index 4 = .nil ∧ T.index 1 ≠ .nil := by
  obtain ⟨T, h1, h2, _, h4⟩ := C1_translateSequence_recognized emptyFrame recognizedRecords
    (by decide)
  exact ⟨T, h1, h2 4 (by decide), (h4 0 (by decide)).1⟩

/-! ## Operations -/

theorem lGetLastError_log (P : Win32 σ) (L : lua_State) (s : Sys σ) :
    ∃ ext, (lGetLastError P L s).sys.log = s.log ++ ext ∧ ∀ e ∈ ext, isReporterCall e.1 = true := by
  unfold lGetLastError
  by_cases h : 0 ≠ (P (.FormatMessage (FORMAT_MESSAGE_ALLOCATE_BUFFER ||| FORMAT_MESSAGE_FROM_SYSTEM) (P .GetLastError s.world).1.rv) (P .GetLastError s.world).2).1.rv
  · simp only [win32_fst, win32_world, if_pos h, sys_returned, win32_log, List.append_assoc]
    exact ⟨_, rfl, by simp [isReporterCall]⟩
  · simp only [win32_fst, win32_world, if_neg h, sys_returned, win32_log, List.append_assoc]
    exact ⟨_, rfl, by simp [isReporterCall]⟩

theorem lGetLastError_ne_abnormal (P : Win32 σ) (L : lua_State) (s : Sys σ) :
    (lGetLastError P L s).results ≠ [.nil, .string "Abnormal error 421"] := by
  rw [lGetLastError_results]
  intro h
  have h2 : L.ar_name ++ "():" ++ errorText P s.world = "Abnormal error 421" := by
    simpa using h
  have h3 : '(' ∈ (L.ar_name ++ "():" ++ errorText P s.world).data := by simp
  rw [h2] at h3
  exact absurd h3 (by decide)

theorem gettitle_outcomes (P : Win32 σ) (L : lua_State) (s : Sys σ)
    (fn : Nat → Call) :
    ((P (fn 4096) s.world).1.rv ≠ 0 →
      (gettitle P L s fn).results =
        [.string (String.mk ((P (fn 4096) s.world).1.text.take (P (fn 4096) s.world).1.rv))]) ∧
    ((P (fn 4096) s.world).1.rv = 0 →
      (P .GetLastError (P (fn 4096) s.world).2).1.rv ≠ ERROR_SUCCESS →
      gettitle P L s fn = lGetLastError P L (win32 P .GetLastError (win32 P (fn 4096) s).2).2 ∧
      (gettitle P L s fn).results = [.nil, .string (L.ar_name ++ "():" ++
        errorText P (P .GetLastError (P (fn 4096) s.world).2).2)]) ∧
    ((P (fn 4096) s.world).1.rv = 0 →
      (P .GetLastError (P (fn 4096) s.world).2).1.rv = ERROR_SUCCESS →
      (gettitle P L s fn).results = [.nil, .string "Abnormal error 421"]) ∧
    (∀ t : String, ([.nil, .string "Abnormal error 421"] : List LuaValue) ≠ [.string t]) ∧
    (∀ (L1 : lua_State) (s1 : Sys σ),
      (lGetLastError P L1 s1).results ≠ [.nil, .string "Abnormal error 421"]) ∧
    (∀ (L1 : lua_State) (s1 : Sys σ) (t : String),
      (lGetLastError P L1 s1).results ≠ [.string t]) := by
  refine ⟨?_, ?_, ?_, ?_, ?_, ?_⟩
  · intro h
    have h' : ¬ 0 = (P (fn 4096) s.world).1.rv := fun e => h e.symm
    simp [gettitle, h', Outcome.results, lua_pushstring, lua_push]
  · intro h he
    have hg : gettitle P L s fn = lGetLastError P L (win32 P .GetLastError (win32 P (fn 4096) s).2).2 := by
      simp [gettitle, h, he]
    refine ⟨hg, ?_⟩
    rw [hg, lGetLastError_results]
    rfl
  · intro h he
    simp [gettitle, h, he, Outcome.results, lua_pushstring, lua_pushnil, lua_push]
  · intro t h
    simp at h
  · intro L1 s1
    exact lGetLastError_ne_abnormal P L1 s1
  · intro L1 s1 t
    rw [lGetLastError_results]
    simp

/-- C3: `lGetConsoleTitle` (native call `GetConsoleTitle`) and
`lGetConsoleOriginalTitle` (native call `GetConsoleOriginalTitle`) each have
three outcomes, selected by the length `rv` their native call returns for the
buffer of 4096 characters and, when `rv` is 0, by the last error code: a nonzero
`rv` gives the single string made of the first `rv` characters of the buffer;
`rv = 0` with a last error other than `ERROR_SUCCESS` gives what
`lGetLastError` returns, nil and the message; `rv = 0` with last error
`ERROR_SUCCESS` gives nil and "Abnormal error 421".  That last result is
neither a one-string result nor a result of `lGetLastError`, and a result of
`lGetLastError` is no one-string result. -/
theorem C3_gettitle_three_outcomes (P : Win32 σ) (L : lua_State) (s : Sys σ) :
    (((P (.GetConsoleTitle 4096) s.world).1.rv ≠ 0 →
        (lGetConsoleTitle P L s).results =
          [.string (String.mk ((P (.GetConsoleTitle 4096) s.world).1.text.take
            (P (.GetConsoleTitle 4096) s.world).1.rv))]) ∧
      ((P (.GetConsoleTitle 4096) s.world).1.rv = 0 →
        (P .GetLastError (P (.GetConsoleTitle 4096) s.world).2).1.rv ≠ ERROR_SUCCESS →
        lGetConsoleTitle P L s =
          lGetLastError P L (win32 P .GetLastError (win32 P (.GetConsoleTitle 4096) s).2).2 ∧
        (lGetConsoleTitle P L s).results = [.nil, .string (L.ar_name ++ "():" ++
          errorText P (P .GetLastError (P (.GetConsoleTitle 4096) s.world).2).2)]) ∧
      ((P (.GetConsoleTitle 4096) s.world).1.rv = 0 →
        (P .GetLastError (P (.GetConsoleTitle 4096) s.world).2).1.rv = ERROR_SUCCESS →
        (lGetConsoleTitle P L s).results = [.nil, .string "Abnormal error 421"])) ∧
    (((P (.GetConsoleOriginalTitle 4096) s.world).1.rv ≠ 0 →
        (lGetConsoleOriginalTitle P L s).results =
          [.string (String.mk ((P (.GetConsoleOriginalTitle 4096) s.world).1.text.take
            (P (.GetConsoleOriginalTitle 4096) s.world).1.rv))]) ∧
      ((P (.GetConsoleOriginalTitle 4096) s.world).1.rv = 0 →
        (P .GetLastError (P (.GetConsoleOriginalTitle 4096) s.world).2).1.rv ≠ ERROR_SUCCESS →
        lGetConsoleOriginalTitle P L s =
          lGetLastError P L
            (win32 P .GetLastError (win32 P (.GetConsoleOriginalTitle 4096) s).2).2 ∧
        (lGetConsoleOriginalTitle P L s).results = [.nil, .string (L.ar_name ++ "():" ++
          errorText P (P .GetLastError (P (.GetConsoleOriginalTitle 4096) s.world).2).2)]) ∧
      ((P (.GetConsoleOriginalTitle 4096) s.world).1.rv = 0 →
        (P .GetLastError (P (.GetConsoleOriginalTitle 4096) s.world).2).1.rv = ERROR_SUCCESS →
        (lGetConsoleOriginalTitle P L s).results = [.nil, .string "Abnormal error 421"])) ∧
    (∀ t : String, ([.nil, .string "Abnormal error 421"] : List LuaValue) ≠ [.string t]) ∧
    (∀ (L1 : lua_State) (s1 : Sys σ),
      (lGetLastError P L1 s1).results ≠ [.nil, .string "Abnormal error 421"]) ∧
    (∀ (L1 : lua_State) (s1 : Sys σ) (t : String),
      (lGetLastError P L1 s1).results ≠ [.string t]) := by
  have h1 := gettitle_outcomes P L s .GetConsoleTitle
  have h2 := gettitle_outcomes P L s .GetConsoleOriginalTitle
  exact ⟨⟨h1.1, h1.2.1, h1.2.2.1⟩, ⟨h2.1, h2.2.1, h2.2.2.1⟩, h1.2.2.2.1, h1.2.2.2.2.1,
    h1.2.2.2.2.2⟩

/-- Witness for C3: on the simulated console, for both getters, an empty title
with no error pending gives the abnormal result, the title "cmd" gives that
string, and a failure with last error 6 gives nil and the message. -/
theorem C3_gettitle_three_outcomes_witness :
    ((lGetConsoleTitle console (started "GetConsoleTitle" []) ⟨{ }, []⟩).results =
        [.nil, .string "Abnormal error 421"] ∧
      (lGetConsoleTitle console (started "GetConsoleTitle" [])
          ⟨{ title := "cmd".data }, []⟩).results = [.string "cmd"] ∧
      (lGetConsoleTitle console (started "GetConsoleTitle" [])
          ⟨{ titleError := 6 }, []⟩).results =
        [.nil, .string "GetConsoleTitle():The handle is invalid.\r\n"]) ∧
    ((lGetConsoleOriginalTitle console (started "GetConsoleOriginalTitle" [])
          ⟨{ }, []⟩).results = [.nil, .string "Abnormal error 421"] ∧
      (lGetConsoleOriginalTitle console (started "GetConsoleOriginalTitle" [])
          ⟨{ title := "cmd".data }, []⟩).results = [.string "cmd"] ∧
      (lGetConsoleOriginalTitle console (started "GetConsoleOriginalTitle" [])
          ⟨{ titleError := 6 }, []⟩).results =
        [.nil, .string "GetConsoleOriginalTitle():The handle is invalid.\r\n"]) :=
  ⟨⟨(C3_gettitle_three_outcomes console (started "GetConsoleTitle" []) ⟨{ }, []⟩).1.2.2
      rfl rfl,
    (C3_gettitle_three_outcomes console (started "GetConsoleTitle" [])
      ⟨{ title := "cmd".data }, []⟩).1.1 (by decide),
    ((C3_gettitle_three_outcomes console (started "GetConsoleTitle" [])
      ⟨{ titleError := 6 }, []⟩).1.2.1 rfl (by decide)).2⟩,
   ⟨(C3_gettitle_three_outcomes console (started "GetConsoleOriginalTitle" [])
      ⟨{ }, []⟩).2.1.2.2 rfl rfl,
    (C3_gettitle_three_outcomes console (started "GetConsoleOriginalTitle" [])
      ⟨{ title := "cmd".data }, []⟩).2.1.1 (by decide),
    ((C3_gettitle_three_outcomes console (started "GetConsoleOriginalTitle" [])
      ⟨{ titleError := 6 }, []⟩).2.1.2.1 rfl (by decide)).2⟩⟩

/-- C4 (failing input): with a second argument `i`, `lSetConsoleCursorInfo`
tests the size after it was narrowed to the 32 bit field `ci.dwSize`.  For
`i = 4294967346` (2^32 + 50), which lies outside 1..100, the narrowed size is 50:
no error is raised and `SetConsoleCursorInfo` is called with size 50 (on the
simulated console the cursor size becomes 50 and the call succeeds). -/
theorem C4_setCursorInfo_size_wraps :
    (∀ (σ : Type) (P : Win32 σ) (s : Sys σ) (i : Int) (v : LuaValue) (reg : RegKey → LuaValue)
        (name pos : String),
      lSetConsoleCursorInfo P
          { stack := [.integer i, v], registry := reg, ar_name := name, where1 := pos } s =
        if toDWORD i < 1 ∨ toDWORD i > 100 then
          .raised (.value (.string (pos ++ "Size must be in the range 1..100 (had "
            ++ toString (toInt32 (toDWORD i)) ++ ")")))
            { stack := [.integer i, v], registry := reg, ar_name := name, where1 := pos } s
        else
          setCursorInfoCall P
            { stack := [.integer i, v], registry := reg, ar_name := name, where1 := pos } s
            { dwSize := toDWORD i,
              bVisible := lua_toboolean
                { stack := [.integer i, v], registry := reg, ar_name := name, where1 := pos } 1 }) ∧
    ¬ (1 ≤ (4294967346 : Int) ∧ (4294967346 : Int) ≤ 100) ∧
    toDWORD 4294967346 = 50 ∧
    lSetConsoleCursorInfo console
        (started "SetConsoleCursorInfo" [.integer 4294967346, .boolean true]) ⟨{ }, []⟩ =
      .returned 0
        { stack := [.integer 7, .integer 4294967346, .boolean true],
          registry := (started "SetConsoleCursorInfo" []).registry,
          ar_name := "SetConsoleCursorInfo", where1 := "" }
        ⟨{ cursor := { dwSize := 50, bVisible := 1 } },
         [(.SetConsoleCursorInfo 7 { dwSize := 50, bVisible := 1 }, { rv := 1 })]⟩ := by
  refine ⟨?_, by decide, by decide, rfl⟩
  intro σ P s i v reg name pos
  simp only [lSetConsoleCursorInfo, lua_gettop, luaL_checkany, luaL_checkinteger, index2value]
  simp

/-- C10 (failing input): the simulated console has no message text for the
last error 1234567, so `FormatMessage` fails and leaves 317 as the last error;
the fallback message of `lGetLastError` then carries 317, the value
`GetLastError` returns after the failed `FormatMessage`, not the code 1234567
that was pending when `lGetLastError` was entered. -/
theorem C10_fallback_reads_later_error :
    (console .GetLastError { lastError := 1234567 }).1.rv = 1234567 ∧
    (lGetLastError console (started "SetConsoleTitle" []) ⟨{ lastError := 1234567 }, []⟩).results =
      [.nil, .string "SetConsoleTitle():Win32 error 317"] ∧
    (lGetLastError console (started "SetConsoleTitle" []) ⟨{ lastError := 1234567 }, []⟩).sys.log =
      [(.GetLastError, { rv := 1234567 }),
       (.FormatMessage 0x1100 1234567, { rv := 0 }),
       (.GetLastError, { rv := 317 })] :=
  ⟨rfl, rfl, rfl⟩

theorem lWait_core (P : Win32 σ) (L : lua_State) (s : Sys σ) (t : Int)
    (ht : (if 1 ≤ lua_gettop L then luaL_checkinteger L 1 else some (INFINITE : Int)) = some t) :
    (∃ ext, (lWaitForConsoleInput P L s).sys.log =
        s.log ++ (.WaitForSingleObject (CONIN L).1 (toDWORD t),
          (P (.WaitForSingleObject (CONIN L).1 (toDWORD t)) s.world).1) :: ext ∧
        ∀ e ∈ ext, isReporterCall e.1 = true) ∧
    ((P (.WaitForSingleObject (CONIN L).1 (toDWORD t)) s.world).1.rv = WAIT_FAILED →
      (lWaitForConsoleInput P L s).results = [.nil, .string (L.ar_name ++ "():" ++
        errorText P (P (.WaitForSingleObject (CONIN L).1 (toDWORD t)) s.world).2)]) ∧
    ((P (.WaitForSingleObject (CONIN L).1 (toDWORD t)) s.world).1.rv ≠ WAIT_FAILED →
      (lWaitForConsoleInput P L s).results = [.boolean (decide
        ((P (.WaitForSingleObject (CONIN L).1 (toDWORD t)) s.world).1.rv = WAIT_OBJECT_0))]) := by
  unfold lWaitForConsoleInput
  simp only [ht]
  by_cases hf : (P (.WaitForSingleObject (CONIN L).1 (toDWORD t)) s.world).1.rv = WAIT_FAILED
  · have hf' : WAIT_FAILED = (P (.WaitForSingleObject (CONIN L).1 (toDWORD t)) s.world).1.rv := hf.symm
    simp only [win32_fst, if_pos hf']
    refine ⟨?_, ?_, fun h => absurd hf h⟩
    · obtain ⟨ext, h1, h2⟩ := lGetLastError_log P (CONIN L).2
        (win32 P (.WaitForSingleObject (CONIN L).1 (toDWORD t)) s).2
      exact ⟨ext, by rw [h1]; simp, h2⟩
    · intro _
      rw [lGetLastError_results]
      rfl
  · have hf' : ¬ WAIT_FAILED = (P (.WaitForSingleObject (CONIN L).1 (toDWORD t)) s.world).1.rv :=
      fun e => hf e.symm
    simp only [win32_fst, if_neg hf']
    refine ⟨⟨[], by simp, by simp⟩, fun h => absurd h hf, ?_⟩
    intro _
    by_cases h0 : (P (.WaitForSingleObject (CONIN L).1 (toDWORD t)) s.world).1.rv = WAIT_OBJECT_0
    · simp [Outcome.results, lua_pushboolean, lua_push, h0]
    · simp [Outcome.results, lua_pushboolean, lua_push, h0]

/-- C6 (counterexample): called with the timeout 4294967296 on the simulated
console, `lWaitForConsoleInput` makes one platform wait and passes it the
timeout 0, not the timeout it was given. -/
theorem C6_timeout_not_passed_unchanged :
    (lWaitForConsoleInput console (started "WaitForConsoleInput" [.integer 4294967296])
        ⟨{ }, []⟩).sys.log = [(.WaitForSingleObject 3 0, { rv := WAIT_TIMEOUT })] ∧
    ((0 : Nat) : Int) ≠ 4294967296 :=
  ⟨rfl, by decide⟩

/-- C6 (amended): `lWaitForConsoleInput` passes `INFINITE` to the platform wait
when called without argument, and otherwise the integer argument reduced
modulo 2^32, which is the argument itself when it lies in 0..4294967295.  For
every wait result: the result `WAIT_FAILED` gives nil and the message of
`lGetLastError`; any other result gives the single boolean that is true
exactly when the result is `WAIT_OBJECT_0`. -/
theorem C6_waitForInput (P : Win32 σ) (L : lua_State) (s : Sys σ) (w : Nat)
    (hw : (L.stack = [] ∧ w = INFINITE) ∨
      (∃ (t : Int) (rest : List LuaValue), L.stack = rest ++ [.integer t] ∧ w = toDWORD t)) :
    (∃ ext, (lWaitForConsoleInput P L s).sys.log =
        s.log ++ (.WaitForSingleObject (CONIN L).1 w,
          (P (.WaitForSingleObject (CONIN L).1 w) s.world).1) :: ext ∧
        ∀ e ∈ ext, isReporterCall e.1 = true) ∧
    ((P (.WaitForSingleObject (CONIN L).1 w) s.world).1.rv = WAIT_FAILED →
      (lWaitForConsoleInput P L s).results = [.nil, .string (L.ar_name ++ "():" ++
        errorText P (P (.WaitForSingleObject (CONIN L).1 w) s.world).2)]) ∧
    ((P (.WaitForSingleObject (CONIN L).1 w) s.world).1.rv ≠ WAIT_FAILED →
      (lWaitForConsoleInput P L s).results = [.boolean (decide
        ((P (.WaitForSingleObject (CONIN L).1 w) s.world).1.rv = WAIT_OBJECT_0))]) ∧
    (∀ t : Int, toDWORD t = (t % 4294967296).toNat) ∧
    (∀ t : Int, 0 ≤ t → t < 4294967296 → ((toDWORD t : Nat) : Int) = t) := by
  have key : ∃ t : Int, (if 1 ≤ lua_gettop L then luaL_checkinteger L 1
      else some (INFINITE : Int)) = some t ∧ toDWORD t = w := by
    rcases hw with ⟨h1, h2⟩ | ⟨t, rest, h1, h2⟩
    · refine ⟨INFINITE, by simp [lua_gettop, h1], ?_⟩
      rw [h2]; decide
    · refine ⟨t, ?_, h2.symm⟩
      simp [lua_gettop, h1, luaL_checkinteger, index2value]
  obtain ⟨t, ht, htw⟩ := key
  have h := lWait_core P L s t ht
  rw [htw] at h
  refine ⟨h.1, h.2.1, h.2.2, fun t => rfl, ?_⟩
  intro t h0 h1
  unfold toDWORD
  have h : (t % 2 ^ 32) = t := Int.emod_eq_of_lt h0 (by omega)
  rw [h]; omega

/-- Witness for C6: on the simulated console with an empty queue, a wait with
timeout 0 passes 0 and returns false. -/
theorem C6_waitForInput_witness :
    (lWaitForConsoleInput console (started "WaitForConsoleInput" [.integer 0]) ⟨{ }, []⟩).results
      = [.boolean false] :=
  (C6_waitForInput console (started "WaitForConsoleInput" [.integer 0]) ⟨{ }, []⟩ 0
    (Or.inr ⟨0, [], rfl, rfl⟩)).2.2.1 (by decide)

theorem isErrorValue_intro (P : Win32 σ) (L L1 : lua_State) (s1 : Sys σ)
    (h : L1.ar_name = L.ar_name) : IsErrorValue P L (lGetLastError P L1 s1) :=
  ⟨L1, s1, rfl, h, by rw [lGetLastError_results, h]⟩

theorem winconlib_failure (P : Win32 σ) (op : Op) (L : lua_State) (s : Sys σ)
    (hf : ((winconlib P op L s).sys.log.drop s.log.length).any reportsFailure = true) :
    IsErrorValue P L (winconlib P op L s) := by
  revert hf
  cases op <;>
  simp only [winconlib, lGetConsoleInputMode, lGetConsoleOutputMode, lSetConsoleInputMode,
    lSetConsoleOutputMode, lGetConsoleMode, lSetConsoleMode, lGetConsoleCP, lGetConsoleOutputCP,
    lSetConsoleCP, lSetConsoleOutputCP, lFlushConsoleInputBuffer, lGetNumberOfConsoleInputEvents,
    lGetNumberOfConsoleMouseButtons, lPeekConsoleInput, lReadConsoleInput, lWaitForConsoleInput,
    lFillConsoleOutputAttribute, lFillConsoleOutputCharacter, lSetConsoleTextAttribute,
    lWriteConsole, lGetConsoleCursorInfo, lSetConsoleCursorInfo, setCursorInfoCall,
    lSetConsoleCursorPosition, lGetConsoleScreenBufferInfo, lGetConsoleOriginalTitle,
    lGetConsoleTitle, gettitle, lSetConsoleTitle, CONIN, CONOUT, getHandle] <;>
  (repeat' split) <;>
  first
  | (intro _; exact isErrorValue_intro P L _ _ (by simp [lua_rawgetp_registry, lua_createtable]))
  | (intro hf
     exfalso
     (simp only [sys_returned, sys_raised, sys_crashed, win32_log, win32_fst, win32_world, List.drop_left,
       List.append_assoc, List.drop_length, List.any_cons, List.any_nil, List.cons_append,
       List.nil_append, reportsFailure, Bool.or_false, Bool.or_eq_true, decide_eq_true_eq,
       WAIT_FAILED, Bool.false_eq_true, false_or, or_false] at *) <;> omega)

theorem lGetLastError_fallback (P : Win32 σ) (L : lua_State) (s : Sys σ)
    (hfm : (P (.FormatMessage (FORMAT_MESSAGE_ALLOCATE_BUFFER ||| FORMAT_MESSAGE_FROM_SYSTEM)
      (P .GetLastError s.world).1.rv) (P .GetLastError s.world).2).1.rv = 0) :
    (lGetLastError P L s).results = [.nil, .string (L.ar_name ++ "():Win32 error " ++
      toString (P .GetLastError (P (.FormatMessage
        (FORMAT_MESSAGE_ALLOCATE_BUFFER ||| FORMAT_MESSAGE_FROM_SYSTEM)
        (P .GetLastError s.world).1.rv) (P .GetLastError s.world).2).2).1.rv)] := by
  simp [lGetLastError, hfm, Outcome.results, lua_pushstring, lua_pushnil, lua_push]

/-- C5 (counterexample): on the simulated console with a rejected handle,
`GetConsoleMode` fails and `lGetConsoleOutputMode` returns nil followed by one
string; the first of the two values is nil, not the name of the operation. -/
theorem C5_first_part_is_nil :
    (lGetConsoleOutputMode console (startedBad "GetConsoleOutputMode" []) ⟨{ }, []⟩).results =
      [.nil, .string "GetConsoleOutputMode():The handle is invalid.\r\n"] ∧
    ((lGetConsoleOutputMode console (startedBad "GetConsoleOutputMode" [])
        ⟨{ }, []⟩).sys.log.take 1 = [(.GetConsoleMode 99, { rv := 0 })]) ∧
    (lGetConsoleOutputMode console (startedBad "GetConsoleOutputMode" []) ⟨{ }, []⟩).results.head?
      ≠ some (.string "GetConsoleOutputMode") := by
  refine ⟨rfl, rfl, ?_⟩
  intro h
  cases h

/-- C5 (amended): whenever a native call made by an entry of the library comes
back with the failure indicator the entry tests for (0 of a `BOOL` function,
`WAIT_FAILED` of the wait), and likewise when a title getter comes back with
length 0 and a last error other than `ERROR_SUCCESS`, the entry returns exactly
what `lGetLastError` returns: two values, nil and one string made of the name
of the running function, the text "():" and the message. -/
theorem C5_failure_returns_error_value (P : Win32 σ) (op : Op) (L : lua_State) (s : Sys σ)
    (hf : ((winconlib P op L s).sys.log.drop s.log.length).any reportsFailure = true ∨
      (op = .GetConsoleTitle ∧ (P (.GetConsoleTitle 4096) s.world).1.rv = 0 ∧
        (P .GetLastError (P (.GetConsoleTitle 4096) s.world).2).1.rv ≠ ERROR_SUCCESS) ∨
      (op = .GetConsoleOriginalTitle ∧ (P (.GetConsoleOriginalTitle 4096) s.world).1.rv = 0 ∧
        (P .GetLastError (P (.GetConsoleOriginalTitle 4096) s.world).2).1.rv ≠ ERROR_SUCCESS)) :
    ∃ (L1 : lua_State) (s1 : Sys σ),
      winconlib P op L s = lGetLastError P L1 s1 ∧ L1.ar_name = L.ar_name ∧
      (winconlib P op L s).results =
        [.nil, .string (L.ar_name ++ "():" ++ errorText P s1.world)] := by
  rcases hf with hf | ⟨rfl, h0, he⟩ | ⟨rfl, h0, he⟩
  · exact winconlib_failure P op L s hf
  · have hg : winconlib P .GetConsoleTitle L s =
        lGetLastError P L (win32 P .GetLastError (win32 P (.GetConsoleTitle 4096) s).2).2 := by
      simp [winconlib, lGetConsoleTitle, gettitle, h0, he]
    rw [hg]
    exact isErrorValue_intro P L L _ rfl
  · have hg : winconlib P .GetConsoleOriginalTitle L s =
        lGetLastError P L
          (win32 P .GetLastError (win32 P (.GetConsoleOriginalTitle 4096) s).2).2 := by
      simp [winconlib, lGetConsoleOriginalTitle, gettitle, h0, he]
    rw [hg]
    exact isErrorValue_intro P L L _ rfl

/-- Witness for C5: on the simulated console with a rejected handle,
`SetConsoleMode` fails and `SetConsoleOutputMode` returns what
`lGetLastError` returns. -/
theorem C5_failure_returns_error_value_witness :
    ∃ (L1 : lua_State) (s1 : Sys Console),
      winconlib console .SetConsoleOutputMode
          (startedBad "SetConsoleOutputMode" [.integer 5]) ⟨{ }, []⟩ =
        lGetLastError console L1 s1 ∧
      L1.ar_name = "SetConsoleOutputMode" ∧
      (winconlib console .SetConsoleOutputMode
          (startedBad "SetConsoleOutputMode" [.integer 5]) ⟨{ }, []⟩).results =
        [.nil, .string ("SetConsoleOutputMode" ++ "():" ++ errorText console s1.world)] :=
  C5_failure_returns_error_value console .SetConsoleOutputMode
    (startedBad "SetConsoleOutputMode" [.integer 5]) ⟨{ }, []⟩ (Or.inl rfl)

/-- C11 (failing input): `lSetConsoleInputMode` and `lSetConsoleOutputMode`
called with no argument.  The handle lookup runs first and pushes the cached
handle, so index 1 of the stack is that handle and `luaL_checkinteger(L,1)`
accepts it: no argument error is raised, and `SetConsoleMode` is called with
the handle, narrowed to a `DWORD`, as the mode word.  The sibling entries
`lSetConsoleCP` and `lSetConsoleTextAttribute`, which check their argument
before any lookup, do raise the argument error without a native call.  On the
simulated console `SetConsoleInputMode()` sets the input mode to 3, the value
of the input handle, and returns as a success. -/
theorem C11_setmode_without_argument_reads_handle :
    (∀ (σ : Type) (P : Win32 σ) (s : Sys σ) (hi ho : Int) (name pos : String),
      lSetConsoleInputMode P
          { stack := [],
            registry := fun k => match k with
              | .hin => .integer hi
              | .hout => .integer ho,
            ar_name := name, where1 := pos } s =
        (if 0 = (P (.SetConsoleMode hi (toDWORD hi)) s.world).1.rv then
          lGetLastError P
            { stack := [.integer hi],
              registry := fun k => match k with
                | .hin => .integer hi
                | .hout => .integer ho,
              ar_name := name, where1 := pos }
            (win32 P (.SetConsoleMode hi (toDWORD hi)) s).2
        else
          .returned 0
            { stack := [.integer hi],
              registry := fun k => match k with
                | .hin => .integer hi
                | .hout => .integer ho,
              ar_name := name, where1 := pos }
            (win32 P (.SetConsoleMode hi (toDWORD hi)) s).2) ∧
      lSetConsoleOutputMode P
          { stack := [],
            registry := fun k => match k with
              | .hin => .integer hi
              | .hout => .integer ho,
            ar_name := name, where1 := pos } s =
        (if 0 = (P (.SetConsoleMode ho (toDWORD ho)) s.world).1.rv then
          lGetLastError P
            { stack := [.integer ho],
              registry := fun k => match k with
                | .hin => .integer hi
                | .hout => .integer ho,
              ar_name := name, where1 := pos }
            (win32 P (.SetConsoleMode ho (toDWORD ho)) s).2
        else
          .returned 0
            { stack := [.integer ho],
              registry := fun k => match k with
                | .hin => .integer hi
                | .hout => .integer ho,
              ar_name := name, where1 := pos }
            (win32 P (.SetConsoleMode ho (toDWORD ho)) s).2)) ∧
    (∀ (σ : Type) (P : Win32 σ) (s : Sys σ) (reg : RegKey → LuaValue) (name pos : String),
      lSetConsoleCP P { stack := [], registry := reg, ar_name := name, where1 := pos } s =
        .raised (.argument 1) { stack := [], registry := reg, ar_name := name, where1 := pos } s ∧
      lSetConsoleTextAttribute P
          { stack := [], registry := reg, ar_name := name, where1 := pos } s =
        .raised (.argument 1) { stack := [], registry := reg, ar_name := name, where1 := pos } s) ∧
    lSetConsoleInputMode console (started "SetConsoleInputMode" []) ⟨{ }, []⟩ =
      .returned 0 (started "SetConsoleInputMode" [.integer 3])
        ⟨{ inputMode := 3 }, [(.SetConsoleMode 3 3, { rv := 1 })]⟩ ∧
    lSetConsoleOutputMode console (started "SetConsoleOutputMode" []) ⟨{ }, []⟩ =
      .returned 0 (started "SetConsoleOutputMode" [.integer 7])
        ⟨{ outputMode := 7 }, [(.SetConsoleMode 7 7, { rv := 1 })]⟩ := by
  refine ⟨?_, ?_, rfl, rfl⟩
  · intro σ P s hi ho name pos
    exact ⟨rfl, rfl⟩
  · intro σ P s reg name pos
    exact ⟨rfl, rfl⟩

end Wincon
